import Mathlib

set_option maxRecDepth 100000
set_option maxHeartbeats 4000000

/-!
Verification of `tools/generate_textures.py`, the procedural pixel-art
texture generator of the Mega Knights repository.

The imperative program is embedded shallowly: every drawing helper
(`fill`, `shade`, `hl`, `vl`, `px`, the chainmail checkerboard loops and
the shape-template painter) is translated into the finite sequence
(trace) of `putpixel` events it performs, in program order.  The final
image is the left fold of that trace over the initial transparent
canvas; `putpixel`'s bounds check is captured by `inBounds`/`okTrace`.
Coordinates are `Int` (Python integers); colors are RGBA 4-tuples of
channel values, exactly the hard-coded palette constants of the source.
-/

namespace generate_textures

/-- RGBA color: a 4-tuple of channel values, as the source's tuples. -/
abbrev Color := Nat × Nat × Nat × Nat

/-- Transparent color constant `T = (0, 0, 0, 0)` from the source. -/
def T : Color := (0, 0, 0, 0)

/-- One `putpixel` event: the coordinates and the color written. -/
structure Write where
  x : Int
  y : Int
  color : Color
deriving DecidableEq

/-- A box-UV face rectangle `(x, y, w, h)`. -/
abbrev Rect := Int × Int × Int × Int

/-- A face dictionary, in Python dict insertion order. -/
abbrev Faces := List (String × Rect)

/-- `_faces(origin, whd)`: the six box-UV face rectangles, in the
insertion order of the source's dict literal. -/
def _faces (origin : Int × Int) (whd : Int × Int × Int) : Faces :=
  let U := origin.1
  let V := origin.2
  let W := whd.1
  let H := whd.2.1
  let D := whd.2.2
  [("top", (U+D, V, W, D)), ("bottom", (U+D+W, V, W, D)),
   ("right", (U, V+D, D, H)), ("front", (U+D, V+D, W, H)),
   ("left", (U+D+W, V+D, D, H)), ("back", (U+D+W+D, V+D, W, H))]

/-- The `SKIN` UV table (64x64 skins), in dict insertion order. -/
def SKIN : List (String × Faces) :=
  [("head", _faces (0,0) (8,8,8)), ("body", _faces (16,16) (8,12,4)),
   ("r_arm", _faces (40,16) (4,12,4)), ("r_leg", _faces (0,16) (4,12,4)),
   ("l_arm", _faces (32,48) (4,12,4)), ("l_leg", _faces (16,48) (4,12,4))]

def ARM_PARTS : List String := ["r_arm", "l_arm"]

def LEG_PARTS : List String := ["r_leg", "l_leg"]

/-- `SKIN[part]` (the lookup always succeeds on the keys the source uses). -/
def skinPart (name : String) : Faces := (SKIN.lookup name).getD []

/-- `faces[name]` (the lookup always succeeds on the keys the source uses). -/
def face (fs : Faces) (name : String) : Rect := (fs.lookup name).getD (0, 0, 0, 0)

/-- `fill(img, x, y, w, h, c)`: row-major double loop of putpixel events. -/
def fill (x y w h : Int) (c : Color) : List Write :=
  (List.range h.toNat).flatMap fun (j : Nat) =>
    (List.range w.toNat).map fun (i : Nat) => (⟨x + (i : Int), y + (j : Int), c⟩ : Write)

/-- `hl(img, x, y, n, c)`: horizontal line, `n` pixels from `(x, y)`. -/
def hl (x y n : Int) (c : Color) : List Write :=
  (List.range n.toNat).map fun (i : Nat) => (⟨x + (i : Int), y, c⟩ : Write)

/-- `vl(img, x, y, n, c)`: vertical line, `n` pixels from `(x, y)`. -/
def vl (x y n : Int) (c : Color) : List Write :=
  (List.range n.toNat).map fun (i : Nat) => (⟨x, y + (i : Int), c⟩ : Write)

/-- `px(img, x, y, c)`: a single putpixel event. -/
def px (x y : Int) (c : Color) : List Write := [⟨x, y, c⟩]

/-- `shade(img, x, y, w, h, base, hi, lo)`: fill, then the four edge
loops in source order.  The source's `range(1, h-1)` loops have
`(h-2).toNat` iterations at offsets `1+i`. -/
def shade (x y w h : Int) (base hi lo : Color) : List Write :=
  fill x y w h base
    ++ ((List.range w.toNat).map fun (i : Nat) => (⟨x + (i : Int), y, hi⟩ : Write))
    ++ ((List.range (h - 2).toNat).map fun (i : Nat) => (⟨x, y + 1 + (i : Int), hi⟩ : Write))
    ++ ((List.range w.toNat).map fun (i : Nat) => (⟨x + (i : Int), y + h - 1, lo⟩ : Write))
    ++ ((List.range (h - 2).toNat).map fun (i : Nat) => (⟨x + w - 1, y + 1 + (i : Int), lo⟩ : Write))

/-- `paint_part(img, faces, base, hi, lo, top_c, bot_c)`.  The source's
`top_c = top_c or hi` default is modelled with `Option`; every call in
the program leaves both optional arguments at their default. -/
def paint_part (faces : Faces) (base hi lo : Color)
    (top_c bot_c : Option Color) : List Write :=
  let top_c := top_c.getD hi
  let bot_c := bot_c.getD lo
  faces.flatMap fun nf =>
    let (fx, fy, fw, fh) := nf.2
    if nf.1 = "top" then shade fx fy fw fh top_c hi base
    else if nf.1 = "bottom" then shade fx fy fw fh bot_c lo lo
    else if nf.1 = "back" then shade fx fy fw fh lo base lo
    else shade fx fy fw fh base hi lo

/-- A canvas as produced by `Image.new(mode, (w, h), T)`. -/
structure Canvas where
  width : Int
  height : Int
  mode : String
  start : Color
deriving DecidableEq

/-- `new_skin()`: 64x64 RGBA canvas, transparent. -/
def new_skin : Canvas := ⟨64, 64, "RGBA", T⟩

/-- `new_armor_tex()`: 64x32 RGBA canvas, transparent. -/
def new_armor_tex : Canvas := ⟨64, 32, "RGBA", T⟩

/-- `new_icon()`: 16x16 RGBA canvas, transparent. -/
def new_icon : Canvas := ⟨16, 16, "RGBA", T⟩

/-- Effect of one `putpixel` event on the pixel at `(a, b)`:
the last write wins. -/
def updAt (a b : Int) (acc : Color) (w : Write) : Color :=
  if w.x = a ∧ w.y = b then w.color else acc

/-- Pixel value at `(a, b)` after replaying a trace over initial
pixel contents `init`. -/
def pixelAt (init : Int → Int → Color) (t : List Write) (a b : Int) : Color :=
  t.foldl (updAt a b) (init a b)

/-- Pixel value at `(a, b)` of the saved image: trace replayed over the
uniform initial canvas color. -/
def imagePixel (c : Canvas) (t : List Write) (a b : Int) : Color :=
  pixelAt (fun _ _ => c.start) t a b

/-- `putpixel`'s bounds condition `0 <= x < width and 0 <= y < height`. -/
def inBounds (c : Canvas) (x y : Int) : Bool :=
  decide (0 ≤ x) && decide (x < c.width) && decide (0 ≤ y) && decide (y < c.height)

/-- Every event of the trace hits inside the canvas, i.e. no `putpixel`
call reaches its out-of-bounds error branch. -/
def okTrace (c : Canvas) (t : List Write) : Bool :=
  t.all fun w => inBounds c w.x w.y

-- ====================================================================
--  COLOR PALETTES  (R, G, B, A)
-- ====================================================================

def AK_STEEL_HI : Color := (208, 208, 216, 255)
def AK_STEEL    : Color := (138, 142, 150, 255)
def AK_STEEL_LO : Color := (74,  78,  90,  255)
def AK_BLUE_HI  : Color := (91,  141, 217, 255)
def AK_BLUE     : Color := (46,  91,  168, 255)
def AK_BLUE_LO  : Color := (26,  58,  110, 255)
def AK_GOLD     : Color := (212, 168, 50,  255)
def AK_GOLD_LO  : Color := (139, 105, 20,  255)
def AK_DARK     : Color := (30,  30,  40,  255)
def AK_EYE      : Color := (180, 210, 255, 255)
def AK_BROWN    : Color := (101, 80,  52,  255)
def AK_BROWN_LO : Color := (70,  55,  36,  255)

def EK_STEEL_HI : Color := (144, 144, 152, 255)
def EK_STEEL    : Color := (88,  88,  96,  255)
def EK_STEEL_LO : Color := (42,  42,  50,  255)
def EK_RED_HI   : Color := (224, 80,  80,  255)
def EK_RED      : Color := (160, 24,  24,  255)
def EK_RED_LO   : Color := (96,  16,  16,  255)
def EK_DARK     : Color := (25,  20,  20,  255)
def EK_EYE      : Color := (255, 60,  60,  255)

def AA_GREEN_HI : Color := (106, 174, 74,  255)
def AA_GREEN    : Color := (60,  122, 40,  255)
def AA_GREEN_LO : Color := (30,  78,  20,  255)
def AA_LEATH_HI : Color := (196, 154, 108, 255)
def AA_LEATH    : Color := (139, 105, 65,  255)
def AA_LEATH_LO : Color := (90,  62,  34,  255)
def AA_SKIN     : Color := (212, 165, 116, 255)
def AA_SKIN_LO  : Color := (180, 130, 90,  255)
def AA_HAIR     : Color := (100, 70,  40,  255)
def AA_EYE      : Color := (60,  40,  20,  255)
def AA_TAN_HI   : Color := (232, 216, 176, 255)
def AA_TAN      : Color := (196, 170, 120, 255)
def AA_TAN_LO   : Color := (138, 122, 80,  255)
def AA_QUIVER   : Color := (90,  58,  30,  255)
def AA_ARROW    : Color := (196, 160, 96,  255)
def AA_FLETCH   : Color := (200, 50,  50,  255)

def EA_GREEN_HI  : Color := (58,  64,  48,  255)
def EA_GREEN     : Color := (42,  45,  42,  255)
def EA_GREEN_LO  : Color := (21,  24,  21,  255)
def EA_MAROON_HI : Color := (90,  48,  48,  255)
def EA_MAROON    : Color := (74,  26,  26,  255)
def EA_MAROON_LO : Color := (45,  15,  15,  255)
def EA_LEATH_HI  : Color := (90,  68,  48,  255)
def EA_LEATH     : Color := (58,  40,  24,  255)
def EA_LEATH_LO  : Color := (42,  28,  16,  255)
def EA_EYE       : Color := (200, 50,  30,  255)
def EA_SKIN_LO   : Color := (50,  35,  25,  255)

def AW_PURP_HI  : Color := (139, 95,  199, 255)
def AW_PURP     : Color := (106, 49,  144, 255)
def AW_PURP_LO  : Color := (68,  10,  95,  255)
def AW_GOLD     : Color := (251, 194, 0,   255)
def AW_GOLD_LO  : Color := (180, 140, 0,   255)
def AW_SKIN     : Color := (212, 165, 116, 255)
def AW_SKIN_LO  : Color := (180, 130, 90,  255)
def AW_BEARD_HI : Color := (240, 240, 245, 255)
def AW_BEARD    : Color := (210, 210, 215, 255)
def AW_BEARD_LO : Color := (175, 175, 185, 255)
def AW_CYAN     : Color := (127, 212, 255, 255)
def AW_CYAN_LO  : Color := (80,  160, 210, 255)

def EW_DARK_HI : Color := (46,  24,  52,  255)
def EW_DARK    : Color := (27,  0,   54,  255)
def EW_DARK_LO : Color := (15,  0,   32,  255)
def EW_RED     : Color := (220, 20,  60,  255)
def EW_FIRE_HI : Color := (255, 100, 30,  255)
def EW_FIRE    : Color := (255, 69,  0,   255)
def EW_FIRE_LO : Color := (180, 40,  0,   255)
def EW_SHADOW  : Color := (20,  15,  20,  255)
def EW_EYE     : Color := (255, 0,   0,   255)

def AD_NAVY_HI : Color := (30,  40,  70,  255)
def AD_NAVY    : Color := (26,  26,  46,  255)
def AD_NAVY_LO : Color := (15,  15,  26,  255)
def AD_BLUE    : Color := (0,   102, 255, 255)
def AD_BLUE_HI : Color := (102, 178, 255, 255)
def AD_BLUE_LO : Color := (0,   60,  160, 255)
def AD_SILVER  : Color := (136, 153, 170, 255)

def ED_BLACK_HI : Color := (28,  28,  28,  255)
def ED_BLACK    : Color := (13,  13,  13,  255)
def ED_BLACK_LO : Color := (0,   0,   0,   255)
def ED_CRIM     : Color := (139, 0,   0,   255)
def ED_CRIM_HI  : Color := (204, 0,   0,   255)
def ED_RUST     : Color := (74,  32,  32,  255)

def SL_BLACK_HI : Color := (28,  28,  28,  255)
def SL_BLACK    : Color := (13,  13,  13,  255)
def SL_BLACK_LO : Color := (0,   0,   0,   255)
def SL_CRIM     : Color := (180, 0,   0,   255)
def SL_CRIM_HI  : Color := (220, 30,  30,  255)
def SL_GOLD_HI  : Color := (255, 215, 0,   255)
def SL_GOLD     : Color := (218, 165, 32,  255)
def SL_GOLD_LO  : Color := (139, 105, 20,  255)

def PAGE_HI     : Color := (232, 212, 168, 255)
def PAGE        : Color := (210, 180, 140, 255)
def PAGE_LO     : Color := (139, 105, 65,  255)
def PAGE_STITCH : Color := (120, 85,  50,  255)

def SQUIRE_HI  : Color := (200, 200, 200, 255)
def SQUIRE     : Color := (168, 168, 168, 255)
def SQUIRE_LO  : Color := (80,  80,  80,  255)
def SQUIRE_ALT : Color := (130, 130, 140, 255)

def KNIGHT_HI   : Color := (160, 192, 216, 255)
def KNIGHT      : Color := (70,  130, 180, 255)
def KNIGHT_LO   : Color := (30,  61,  107, 255)
def KNIGHT_SPEC : Color := (255, 255, 255, 255)

def CHAMP_HI   : Color := (255, 215, 0,   255)
def CHAMP      : Color := (218, 165, 32,  255)
def CHAMP_LO   : Color := (139, 105, 20,  255)
def CHAMP_SPEC : Color := (255, 248, 220, 255)
def CHAMP_GEM  : Color := (220, 20,  60,  255)

def MEGA_HI      : Color := (155, 89,  182, 255)
def MEGA         : Color := (75,  0,   130, 255)
def MEGA_LO      : Color := (26,  26,  46,  255)
def MEGA_GOLD    : Color := (255, 215, 0,   255)
def MEGA_GOLD_LO : Color := (180, 140, 0,   255)
def MEGA_GLOW    : Color := (200, 160, 255, 255)

-- ====================================================================
--  ENTITY SKIN PAINTERS (64x64)
-- ====================================================================

/-- `paint_ally_knight(img)`: the full trace of drawing calls. -/
def paint_ally_knight : List Write :=
  (SKIN.flatMap fun pf => paint_part pf.2 AK_STEEL AK_STEEL_HI AK_STEEL_LO none none)
  -- HEAD FRONT (8x8 at 8,8): closed helmet with visor
  ++ (let hx : Int := 8
      let hy : Int := 8
      fill hx hy 8 8 AK_STEEL
      ++ hl hx hy 8 AK_STEEL_HI
      ++ hl hx (hy+1) 8 AK_STEEL_HI
      ++ hl (hx+1) (hy+3) 6 AK_DARK
      ++ hl (hx+1) (hy+4) 6 AK_DARK
      ++ px (hx+2) (hy+3) AK_EYE
      ++ px (hx+5) (hy+3) AK_EYE
      ++ hl hx (hy+7) 8 AK_STEEL_LO
      ++ vl (hx+7) hy 8 AK_STEEL_LO)
  -- Head top: steel with blue plume stripe
  ++ (let tx : Int := 8
      let ty : Int := 0
      fill tx ty 8 8 AK_STEEL
      ++ ((List.range 8).flatMap fun i => px (tx+3) (ty+i) AK_BLUE)
      ++ ((List.range 8).flatMap fun i => px (tx+4) (ty+i) AK_BLUE))
  -- BODY FRONT (8x12 at 20,20): blue tabard over steel
  ++ (let bx : Int := 20
      let byy : Int := 20
      fill bx byy 8 12 AK_BLUE
      ++ hl bx byy 8 AK_BLUE_HI
      ++ vl bx byy 12 AK_BLUE_HI
      ++ fill bx byy 8 2 AK_STEEL
      ++ hl bx byy 8 AK_STEEL_HI
      ++ vl (bx+3) (byy+4) 5 AK_GOLD
      ++ hl (bx+1) (byy+6) 6 AK_GOLD
      ++ hl bx (byy+9) 8 AK_BROWN
      ++ px (bx+3) (byy+9) AK_GOLD
      ++ px (bx+4) (byy+9) AK_GOLD
      ++ hl bx (byy+11) 8 AK_BLUE_LO
      ++ vl (bx+7) byy 12 AK_BLUE_LO
      -- Body back: blue cape
      ++ (let bkx : Int := 32
          let bky : Int := 20
          fill bkx bky 8 12 AK_BLUE
          ++ hl bkx bky 8 AK_BLUE_HI
          ++ vl (bkx+2) (bky+1) 10 AK_BLUE_LO
          ++ vl (bkx+5) (bky+1) 10 AK_BLUE_LO
          ++ hl bkx (bky+11) 8 AK_BLUE_LO)
      -- Specular highlight on chest
      ++ px (bx+2) (byy+3) AK_STEEL_HI)
  -- Arms: steel with blue stripe
  ++ (ARM_PARTS.flatMap fun part =>
      (skinPart part).flatMap fun nf =>
        let (fx, fy, fw, fh) := nf.2
        if nf.1 = "front" then
          shade fx fy fw fh AK_STEEL AK_STEEL_HI AK_STEEL_LO
          ++ vl (fx+1) (fy+2) 8 AK_BLUE
          ++ fill fx (fy+fh-3) fw 3 AK_STEEL_LO
          ++ hl fx (fy+fh-3) fw AK_STEEL
        else [])
  -- Legs: blue/steel with brown boots
  ++ (LEG_PARTS.flatMap fun part =>
      let (fx, fy, fw, fh) := face (skinPart part) "front"
      shade fx fy fw fh AK_BLUE AK_BLUE_HI AK_BLUE_LO
      ++ fill fx (fy+fh-4) fw 4 AK_BROWN
      ++ hl fx (fy+fh-4) fw AK_BROWN
      ++ hl fx (fy+fh-1) fw AK_BROWN_LO)

/-- `paint_enemy_knight(img)`: the full trace of drawing calls. -/
def paint_enemy_knight : List Write :=
  (SKIN.flatMap fun pf => paint_part pf.2 EK_STEEL EK_STEEL_HI EK_STEEL_LO none none)
  -- HEAD: dark helmet, narrow visor, red eyes
  ++ (let hx : Int := 8
      let hy : Int := 8
      fill hx hy 8 8 EK_STEEL
      ++ hl hx hy 8 EK_STEEL_HI
      ++ hl (hx+1) (hy+3) 6 EK_DARK
      ++ px (hx+2) (hy+3) EK_EYE
      ++ px (hx+5) (hy+3) EK_EYE
      ++ px (hx+6) (hy+1) EK_STEEL_LO
      ++ px (hx+5) (hy+2) EK_STEEL_LO
      ++ hl hx (hy+7) 8 EK_STEEL_LO
      ++ vl (hx+7) hy 8 EK_STEEL_LO)
  -- Head top: dark with small horn nubs
  ++ fill 8 0 8 8 EK_STEEL
  ++ px 10 0 EK_STEEL_HI
  ++ px 13 0 EK_STEEL_HI
  -- BODY: dark steel with red accents
  ++ (let bx : Int := 20
      let byy : Int := 20
      fill bx byy 8 12 EK_STEEL
      ++ hl bx byy 8 EK_STEEL_HI
      ++ vl bx byy 12 EK_STEEL_HI
      ++ px (bx+2) (byy+3) EK_RED ++ px (bx+5) (byy+3) EK_RED
      ++ px (bx+3) (byy+4) EK_RED ++ px (bx+4) (byy+4) EK_RED
      ++ px (bx+3) (byy+5) EK_RED ++ px (bx+4) (byy+5) EK_RED
      ++ px (bx+2) (byy+6) EK_RED ++ px (bx+5) (byy+6) EK_RED
      ++ hl bx (byy+9) 8 EK_DARK
      ++ hl bx (byy+11) 8 EK_STEEL_LO
      ++ vl (bx+7) byy 12 EK_STEEL_LO)
  -- Body back: dark, no cape
  ++ (let bkx : Int := 32
      fill bkx 20 8 12 EK_STEEL_LO
      ++ vl (bkx+2) 22 6 EK_DARK
      ++ vl (bkx+5) 23 5 EK_DARK)
  -- Arms: dark steel
  ++ (ARM_PARTS.flatMap fun part =>
      let f := face (skinPart part) "front"
      shade f.1 f.2.1 f.2.2.1 f.2.2.2 EK_STEEL EK_STEEL_HI EK_STEEL_LO
      ++ vl (f.1+1) (f.2.1+2) 4 EK_RED_LO)
  -- Legs: dark steel with dark boots
  ++ (LEG_PARTS.flatMap fun part =>
      let (fx, fy, fw, fh) := face (skinPart part) "front"
      shade fx fy fw fh EK_STEEL EK_STEEL_HI EK_STEEL_LO
      ++ fill fx (fy+fh-4) fw 4 EK_STEEL_LO
      ++ hl fx (fy+fh-4) fw EK_STEEL)

/-- `paint_ally_archer(img)`: the full trace of drawing calls. -/
def paint_ally_archer : List Write :=
  (SKIN.flatMap fun pf => paint_part pf.2 AA_GREEN AA_GREEN_HI AA_GREEN_LO none none)
  -- HEAD: green hood, visible face
  ++ (let hx : Int := 8
      let hy : Int := 8
      fill hx hy 8 3 AA_GREEN
      ++ hl hx hy 8 AA_GREEN_HI
      ++ hl (hx+1) (hy+2) 6 AA_GREEN_LO
      ++ fill (hx+1) (hy+3) 6 4 AA_SKIN
      ++ px hx (hy+3) AA_GREEN ++ px (hx+7) (hy+3) AA_GREEN
      ++ px hx (hy+4) AA_GREEN ++ px (hx+7) (hy+4) AA_GREEN
      ++ px hx (hy+5) AA_GREEN ++ px (hx+7) (hy+5) AA_GREEN
      ++ px (hx+2) (hy+4) AA_EYE
      ++ px (hx+5) (hy+4) AA_EYE
      ++ hl (hx+3) (hy+6) 2 AA_SKIN_LO
      ++ fill hx (hy+7) 8 1 AA_GREEN_LO)
  -- Head top: all hood
  ++ fill 8 0 8 8 AA_GREEN
  ++ hl 8 0 8 AA_GREEN_HI
  -- Head sides: hood with face peek
  ++ ((["right", "left"] : List String).flatMap fun fn =>
      let (fx, fy, fw, fh) := face (skinPart "head") fn
      fill fx fy fw fh AA_GREEN
      ++ fill fx (fy+3) fw 4 AA_GREEN_LO
      ++ fill (fx+2) (fy+3) (fw-3) 3 AA_SKIN)
  -- Head back: hood with drawstring
  ++ (let bkf := face (skinPart "head") "back"
      fill bkf.1 bkf.2.1 bkf.2.2.1 bkf.2.2.2 AA_GREEN
      ++ px (bkf.1+3) (bkf.2.1+6) AA_GREEN_LO
      ++ px (bkf.1+4) (bkf.2.1+6) AA_GREEN_LO)
  -- BODY: leather tunic with quiver strap
  ++ (let bx : Int := 20
      let byy : Int := 20
      fill bx byy 8 12 AA_TAN
      ++ hl bx byy 8 AA_TAN_HI
      ++ vl bx byy 12 AA_TAN_HI
      ++ hl (bx+1) byy 6 AA_GREEN
      ++ px (bx+6) (byy+1) AA_QUIVER
      ++ px (bx+5) (byy+2) AA_QUIVER
      ++ px (bx+4) (byy+3) AA_QUIVER
      ++ px (bx+3) (byy+4) AA_QUIVER
      ++ px (bx+2) (byy+5) AA_QUIVER
      ++ px (bx+1) (byy+6) AA_QUIVER
      ++ hl bx (byy+8) 8 AA_LEATH
      ++ px (bx+3) (byy+8) AA_GREEN_HI
      ++ fill bx (byy+9) 8 3 AA_TAN_LO
      ++ hl bx (byy+11) 8 AA_TAN_LO
      ++ vl (bx+7) byy 12 AA_TAN_LO)
  -- Body back: quiver with arrows
  ++ (let bkx : Int := 32
      let bky : Int := 20
      fill bkx bky 8 12 AA_TAN
      ++ hl bkx bky 8 AA_TAN_HI
      ++ fill (bkx+5) (bky+1) 2 6 AA_QUIVER
      ++ vl (bkx+5) (bky+1) 5 AA_ARROW
      ++ vl (bkx+6) (bky+1) 4 AA_ARROW
      ++ px (bkx+5) (bky+1) AA_FLETCH
      ++ px (bkx+6) (bky+1) AA_FLETCH
      ++ px (bkx+4) (bky+2) AA_QUIVER
      ++ px (bkx+3) (bky+3) AA_QUIVER
      ++ hl bkx (bky+11) 8 AA_TAN_LO)
  -- Arms: green sleeves with leather bracers
  ++ (ARM_PARTS.flatMap fun part =>
      let (fx, fy, fw, fh) := face (skinPart part) "front"
      shade fx fy fw fh AA_GREEN AA_GREEN_HI AA_GREEN_LO
      ++ fill fx (fy+fh-4) fw 4 AA_LEATH
      ++ hl fx (fy+fh-4) fw AA_LEATH_HI
      ++ hl fx (fy+fh-3) fw AA_LEATH_LO
      ++ hl fx (fy+fh-1) fw AA_LEATH_LO)
  -- Legs: green with leather boots
  ++ (LEG_PARTS.flatMap fun part =>
      let (fx, fy, fw, fh) := face (skinPart part) "front"
      shade fx fy fw fh AA_GREEN AA_GREEN_HI AA_GREEN_LO
      ++ fill fx (fy+fh-5) fw 5 AA_LEATH
      ++ hl fx (fy+fh-5) fw AA_LEATH_HI
      ++ hl fx (fy+fh-1) fw AA_LEATH_LO)

/-- `paint_enemy_archer(img)`: the full trace of drawing calls. -/
def paint_enemy_archer : List Write :=
  (SKIN.flatMap fun pf => paint_part pf.2 EA_GREEN EA_GREEN_HI EA_GREEN_LO none none)
  -- HEAD: dark hood, face hidden, slit eyes
  ++ (let hx : Int := 8
      let hy : Int := 8
      fill hx hy 8 8 EA_GREEN
      ++ hl hx hy 8 EA_GREEN_HI
      ++ fill (hx+1) (hy+3) 6 4 EA_GREEN_LO
      ++ px (hx+2) (hy+4) EA_EYE
      ++ px (hx+5) (hy+4) EA_EYE
      ++ hl hx (hy+7) 8 EA_GREEN_LO
      ++ vl (hx+7) hy 8 EA_GREEN_LO)
  -- Head top
  ++ fill 8 0 8 8 EA_GREEN
  -- BODY: dark maroon with quiver strap
  ++ (let bx : Int := 20
      let byy : Int := 20
      fill bx byy 8 12 EA_MAROON
      ++ hl bx byy 8 EA_MAROON_HI
      ++ px (bx+6) (byy+1) EA_LEATH_LO
      ++ px (bx+5) (byy+2) EA_LEATH_LO
      ++ px (bx+4) (byy+3) EA_LEATH_LO
      ++ px (bx+3) (byy+4) EA_LEATH_LO
      ++ px (bx+2) (byy+5) EA_LEATH_LO
      ++ hl bx (byy+8) 8 EA_LEATH_LO
      ++ hl bx (byy+11) 8 EA_MAROON_LO
      ++ vl (bx+7) byy 12 EA_MAROON_LO)
  -- Body back: dark quiver
  ++ (let bkx : Int := 32
      let bky : Int := 20
      fill bkx bky 8 12 EA_MAROON_LO
      ++ fill (bkx+5) (bky+1) 2 6 EA_LEATH_LO
      ++ vl (bkx+5) (bky+1) 5 EA_LEATH
      ++ vl (bkx+6) (bky+1) 4 EA_LEATH
      ++ px (bkx+5) (bky+1) EA_MAROON
      ++ px (bkx+6) (bky+1) EA_MAROON)
  -- Arms: dark with leather bracers
  ++ (ARM_PARTS.flatMap fun part =>
      let (fx, fy, fw, fh) := face (skinPart part) "front"
      shade fx fy fw fh EA_GREEN EA_GREEN_HI EA_GREEN_LO
      ++ fill fx (fy+fh-4) fw 4 EA_LEATH
      ++ hl fx (fy+fh-4) fw EA_LEATH_HI)
  -- Legs: dark with dark boots
  ++ (LEG_PARTS.flatMap fun part =>
      let (fx, fy, fw, fh) := face (skinPart part) "front"
      shade fx fy fw fh EA_MAROON EA_MAROON_HI EA_MAROON_LO
      ++ fill fx (fy+fh-5) fw 5 EA_LEATH
      ++ hl fx (fy+fh-5) fw EA_LEATH_HI)

/-- `paint_ally_wizard(img)`: the full trace of drawing calls. -/
def paint_ally_wizard : List Write :=
  (SKIN.flatMap fun pf => paint_part pf.2 AW_PURP AW_PURP_HI AW_PURP_LO none none)
  -- HEAD: pointed hat with gold brim, visible face, white beard
  ++ (let hx : Int := 8
      let hy : Int := 8
      fill hx hy 8 3 AW_PURP
      ++ hl hx hy 8 AW_PURP_HI
      ++ hl (hx+1) (hy+1) 6 AW_PURP_HI
      ++ hl hx (hy+2) 8 AW_GOLD
      ++ fill (hx+1) (hy+3) 6 2 AW_SKIN
      ++ px hx (hy+3) AW_PURP_LO
      ++ px (hx+7) (hy+3) AW_PURP_LO
      ++ px (hx+2) (hy+3) (50, 50, 80, 255)
      ++ px (hx+5) (hy+3) (50, 50, 80, 255)
      ++ fill (hx+1) (hy+5) 6 2 AW_BEARD
      ++ fill (hx+2) (hy+4) 4 1 AW_BEARD_HI
      ++ px hx (hy+5) AW_PURP_LO
      ++ px (hx+7) (hy+5) AW_PURP_LO
      ++ fill (hx+2) (hy+6) 4 1 AW_BEARD
      ++ fill (hx+3) (hy+7) 2 1 AW_BEARD_LO)
  -- Head top: pointed hat
  ++ (let tx : Int := 8
      let ty : Int := 0
      fill tx ty 8 8 AW_PURP
      ++ fill (tx+2) ty 4 2 AW_PURP_HI
      ++ fill (tx+3) ty 2 1 AW_PURP_HI
      ++ hl tx (ty+7) 8 AW_GOLD)
  -- BODY: purple robes with gold accents
  ++ (let bx : Int := 20
      let byy : Int := 20
      fill bx byy 8 12 AW_PURP
      ++ hl bx byy 8 AW_PURP_HI
      ++ vl bx byy 12 AW_PURP_HI
      ++ hl (bx+1) byy 6 AW_GOLD
      ++ vl (bx+2) (byy+2) 8 AW_PURP_LO
      ++ vl (bx+5) (byy+2) 8 AW_PURP_LO
      ++ px (bx+3) (byy+3) AW_GOLD
      ++ px (bx+4) (byy+3) AW_GOLD
      ++ px (bx+3) (byy+2) AW_GOLD
      ++ px (bx+4) (byy+4) AW_GOLD
      ++ px (bx+2) (byy+3) AW_GOLD
      ++ px (bx+5) (byy+3) AW_GOLD
      ++ hl bx (byy+7) 8 AW_GOLD
      ++ hl (bx+1) (byy+7) 6 AW_GOLD_LO
      ++ hl bx (byy+11) 8 AW_PURP_LO
      ++ hl (bx+1) (byy+11) 6 AW_GOLD_LO
      ++ vl (bx+7) byy 12 AW_PURP_LO)
  -- Body back: robe with fold lines
  ++ (let bkx : Int := 32
      let bky : Int := 20
      fill bkx bky 8 12 AW_PURP_LO
      ++ vl (bkx+2) (bky+1) 10 AW_PURP
      ++ vl (bkx+5) (bky+1) 10 AW_PURP
      ++ hl (bkx+1) (bky+11) 6 AW_GOLD_LO)
  -- Arms: purple robe sleeves, cyan-tinted hands
  ++ (ARM_PARTS.flatMap fun part =>
      let (fx, fy, fw, fh) := face (skinPart part) "front"
      shade fx fy fw fh AW_PURP AW_PURP_HI AW_PURP_LO
      ++ hl fx (fy+fh-2) fw AW_PURP_HI
      ++ fill fx (fy+fh-2) fw 2 AW_CYAN
      ++ hl fx (fy+fh-1) fw AW_CYAN_LO)
  -- Legs: purple robe continuation
  ++ (LEG_PARTS.flatMap fun part =>
      let (fx, fy, fw, fh) := face (skinPart part) "front"
      shade fx fy fw fh AW_PURP AW_PURP_HI AW_PURP_LO
      ++ vl (fx+1) (fy+1) (fh-2) AW_PURP_LO
      ++ fill fx (fy+fh-2) fw 2 AW_PURP_LO)

/-- `paint_enemy_wizard(img)`: the full trace of drawing calls. -/
def paint_enemy_wizard : List Write :=
  (SKIN.flatMap fun pf => paint_part pf.2 EW_DARK EW_DARK_HI EW_DARK_LO none none)
  -- HEAD: deep hood, only red eyes visible
  ++ (let hx : Int := 8
      let hy : Int := 8
      fill hx hy 8 8 EW_DARK
      ++ hl hx hy 8 EW_DARK_HI
      ++ fill (hx+1) (hy+3) 6 4 EW_SHADOW
      ++ px (hx+2) (hy+4) EW_EYE
      ++ px (hx+5) (hy+4) EW_EYE
      ++ px (hx+1) (hy+4) (80, 10, 20, 255)
      ++ px (hx+6) (hy+4) (80, 10, 20, 255)
      ++ px (hx+2) (hy+3) (60, 5, 15, 255)
      ++ px (hx+5) (hy+3) (60, 5, 15, 255)
      ++ hl hx (hy+7) 8 EW_DARK_LO
      ++ vl (hx+7) hy 8 EW_DARK_LO)
  -- Head top: dark hood
  ++ fill 8 0 8 8 EW_DARK
  -- BODY: near-black robes with red runes
  ++ (let bx : Int := 20
      let byy : Int := 20
      fill bx byy 8 12 EW_DARK
      ++ hl bx byy 8 EW_DARK_HI
      ++ vl (bx+2) (byy+2) 8 EW_DARK_LO
      ++ vl (bx+5) (byy+2) 8 EW_DARK_LO
      ++ px (bx+3) (byy+3) EW_RED ++ px (bx+4) (byy+3) EW_RED
      ++ px (bx+2) (byy+4) EW_RED ++ px (bx+5) (byy+4) EW_RED
      ++ px (bx+3) (byy+5) EW_RED ++ px (bx+4) (byy+5) EW_RED
      ++ hl bx (byy+7) 8 EW_RED
      ++ hl bx (byy+11) 8 EW_DARK_LO
      ++ vl (bx+7) byy 12 EW_DARK_LO)
  -- Body back: skull motif
  ++ (let bkx : Int := 32
      let bky : Int := 20
      fill bkx bky 8 12 EW_DARK_LO
      ++ px (bkx+2) (bky+3) EW_DARK_HI ++ px (bkx+5) (bky+3) EW_DARK_HI
      ++ px (bkx+3) (bky+4) EW_DARK_HI ++ px (bkx+4) (bky+4) EW_DARK_HI
      ++ hl (bkx+2) (bky+5) 4 EW_DARK_HI)
  -- Arms: dark robes, fire hands
  ++ (ARM_PARTS.flatMap fun part =>
      let (fx, fy, fw, fh) := face (skinPart part) "front"
      shade fx fy fw fh EW_DARK EW_DARK_HI EW_DARK_LO
      ++ fill fx (fy+fh-2) fw 2 EW_FIRE
      ++ px (fx+1) (fy+fh-2) EW_FIRE_HI
      ++ hl fx (fy+fh-1) fw EW_FIRE_LO)
  -- Legs: dark robes
  ++ (LEG_PARTS.flatMap fun part =>
      let (fx, fy, fw, fh) := face (skinPart part) "front"
      shade fx fy fw fh EW_DARK EW_DARK_HI EW_DARK_LO
      ++ vl (fx+1) (fy+1) (fh-2) EW_DARK_LO)

/-- `paint_ally_dark_knight(img)`: the full trace of drawing calls. -/
def paint_ally_dark_knight : List Write :=
  (SKIN.flatMap fun pf => paint_part pf.2 AD_NAVY AD_NAVY_HI AD_NAVY_LO none none)
  -- HEAD: navy helmet with blue visor glow
  ++ (let hx : Int := 8
      let hy : Int := 8
      fill hx hy 8 8 AD_NAVY
      ++ hl hx hy 8 AD_NAVY_HI
      ++ hl hx (hy+1) 8 AD_NAVY_HI
      ++ hl (hx+1) (hy+3) 6 AD_BLUE
      ++ hl (hx+1) (hy+4) 6 AD_BLUE_LO
      ++ px (hx+3) (hy+3) AD_BLUE_HI
      ++ px (hx+4) (hy+3) AD_BLUE_HI
      ++ vl hx (hy+3) 4 AD_NAVY_HI
      ++ vl (hx+7) (hy+3) 4 AD_NAVY_LO
      ++ hl hx (hy+7) 8 AD_NAVY_LO)
  -- Head top
  ++ fill 8 0 8 8 AD_NAVY
  ++ hl 8 0 8 AD_NAVY_HI
  -- BODY: navy plate with blue energy lines
  ++ (let bx : Int := 20
      let byy : Int := 20
      fill bx byy 8 12 AD_NAVY
      ++ hl bx byy 8 AD_NAVY_HI
      ++ vl bx byy 12 AD_NAVY_HI
      ++ px (bx+3) (byy+2) AD_BLUE
      ++ px (bx+4) (byy+2) AD_BLUE
      ++ px (bx+2) (byy+3) AD_BLUE ++ px (bx+5) (byy+3) AD_BLUE
      ++ px (bx+3) (byy+3) AD_BLUE_HI ++ px (bx+4) (byy+3) AD_BLUE_HI
      ++ px (bx+2) (byy+4) AD_BLUE ++ px (bx+5) (byy+4) AD_BLUE
      ++ px (bx+3) (byy+5) AD_BLUE
      ++ px (bx+4) (byy+5) AD_BLUE
      ++ hl bx (byy+6) 8 AD_NAVY_LO
      ++ hl bx (byy+9) 8 AD_NAVY_LO
      ++ px bx (byy+1) AD_SILVER
      ++ px (bx+7) (byy+1) AD_SILVER
      ++ hl bx (byy+11) 8 AD_NAVY_LO
      ++ vl (bx+7) byy 12 AD_NAVY_LO)
  -- Body back: dark blue cape
  ++ (let bkx : Int := 32
      let bky : Int := 20
      fill bkx bky 8 12 AD_NAVY_LO
      ++ hl bkx bky 8 AD_BLUE_LO
      ++ vl (bkx+3) (bky+1) 10 AD_NAVY
      ++ vl (bkx+5) (bky+1) 10 AD_NAVY)
  -- Arms: navy with blue energy stripe
  ++ (ARM_PARTS.flatMap fun part =>
      let (fx, fy, fw, fh) := face (skinPart part) "front"
      shade fx fy fw fh AD_NAVY AD_NAVY_HI AD_NAVY_LO
      ++ vl (fx+1) (fy+2) 6 AD_BLUE
      ++ fill fx (fy+fh-3) fw 3 AD_NAVY_LO
      ++ hl fx (fy+fh-3) fw AD_NAVY)
  -- Legs: navy with silver toe caps
  ++ (LEG_PARTS.flatMap fun part =>
      let (fx, fy, fw, fh) := face (skinPart part) "front"
      shade fx fy fw fh AD_NAVY AD_NAVY_HI AD_NAVY_LO
      ++ fill fx (fy+fh-4) fw 4 AD_NAVY_LO
      ++ hl fx (fy+fh-4) fw AD_NAVY
      ++ px (fx+1) (fy+fh-1) AD_SILVER
      ++ px (fx+2) (fy+fh-1) AD_SILVER)

/-- `paint_enemy_dark_knight(img)`: the full trace of drawing calls. -/
def paint_enemy_dark_knight : List Write :=
  (SKIN.flatMap fun pf => paint_part pf.2 ED_BLACK ED_BLACK_HI ED_BLACK_LO none none)
  -- HEAD: black helmet, narrow red visor, horn nubs
  ++ (let hx : Int := 8
      let hy : Int := 8
      fill hx hy 8 8 ED_BLACK
      ++ hl hx hy 8 ED_BLACK_HI
      ++ hl (hx+1) (hy+3) 6 (20, 5, 5, 255)
      ++ px (hx+2) (hy+3) ED_CRIM_HI
      ++ px (hx+5) (hy+3) ED_CRIM_HI
      ++ px (hx+1) (hy+3) ED_CRIM
      ++ px (hx+6) (hy+3) ED_CRIM
      ++ px (hx+6) (hy+1) ED_RUST
      ++ px (hx+5) (hy+2) ED_RUST
      ++ px (hx+1) (hy+6) ED_RUST
      ++ hl hx (hy+7) 8 ED_BLACK_LO)
  -- Head top: horn nubs
  ++ fill 8 0 8 8 ED_BLACK
  ++ px 10 0 ED_BLACK_HI
  ++ px 13 0 ED_BLACK_HI
  ++ px 10 1 ED_BLACK_HI
  ++ px 13 1 ED_BLACK_HI
  -- BODY: black plate, crimson accents, asymmetric damage
  ++ (let bx : Int := 20
      let byy : Int := 20
      fill bx byy 8 12 ED_BLACK
      ++ hl bx byy 8 ED_BLACK_HI
      ++ px (bx+2) (byy+3) ED_CRIM
      ++ px (bx+3) (byy+4) ED_CRIM
      ++ px (bx+4) (byy+5) ED_CRIM
      ++ px (bx+5) (byy+4) ED_CRIM
      ++ px (bx+4) (byy+3) ED_CRIM
      ++ px (bx+6) (byy+2) ED_RUST
      ++ px (bx+1) (byy+7) ED_RUST
      ++ px (bx+6) (byy+8) ED_RUST
      ++ hl bx (byy+6) 4 ED_BLACK_LO
      ++ hl (bx+4) (byy+7) 4 ED_BLACK_LO
      ++ px bx (byy+1) ED_CRIM
      ++ px (bx+7) (byy+1) ED_CRIM
      ++ hl bx (byy+11) 8 ED_BLACK_LO
      ++ vl (bx+7) byy 12 ED_BLACK_LO)
  -- Body back: scratch marks
  ++ (let bkx : Int := 32
      let bky : Int := 20
      fill bkx bky 8 12 ED_BLACK_LO
      ++ vl (bkx+2) (bky+2) 6 ED_RUST
      ++ vl (bkx+5) (bky+3) 5 ED_RUST)
  -- Arms: black with crimson accent
  ++ (ARM_PARTS.flatMap fun part =>
      let (fx, fy, fw, fh) := face (skinPart part) "front"
      shade fx fy fw fh ED_BLACK ED_BLACK_HI ED_BLACK_LO
      ++ vl (fx+1) (fy+2) 4 ED_CRIM)
  -- Legs: black
  ++ (LEG_PARTS.flatMap fun part =>
      let (fx, fy, fw, fh) := face (skinPart part) "front"
      shade fx fy fw fh ED_BLACK ED_BLACK_HI ED_BLACK_LO
      ++ fill fx (fy+fh-4) fw 4 ED_BLACK_LO)

/-- `paint_boss_siege_lord(img)`: the full trace of drawing calls. -/
def paint_boss_siege_lord : List Write :=
  (SKIN.flatMap fun pf => paint_part pf.2 SL_BLACK SL_BLACK_HI SL_BLACK_LO none none)
  -- HEAD: black helmet with gold crown and dual eye slits
  ++ (let hx : Int := 8
      let hy : Int := 8
      fill hx hy 8 8 SL_BLACK
      ++ hl hx hy 8 SL_BLACK_HI
      ++ hl hx (hy+7) 8 SL_GOLD
      ++ px (hx+1) (hy+3) SL_CRIM ++ px (hx+2) (hy+3) SL_CRIM_HI
      ++ px (hx+5) (hy+3) SL_CRIM_HI ++ px (hx+6) (hy+3) SL_CRIM
      ++ px (hx+1) (hy+2) (60, 0, 0, 255)
      ++ px (hx+2) (hy+2) (80, 5, 5, 255)
      ++ px (hx+5) (hy+2) (80, 5, 5, 255)
      ++ px (hx+6) (hy+2) (60, 0, 0, 255)
      ++ px hx hy SL_GOLD_HI ++ px (hx+1) hy SL_GOLD
      ++ px (hx+6) hy SL_GOLD ++ px (hx+7) hy SL_GOLD_HI
      ++ px hx (hy+1) SL_GOLD
      ++ px (hx+7) (hy+1) SL_GOLD)
  -- Head top: gold crown zigzag
  ++ (let tx : Int := 8
      let ty : Int := 0
      fill tx ty 8 8 SL_BLACK
      ++ hl tx (ty+6) 8 SL_GOLD
      ++ hl tx (ty+7) 8 SL_GOLD_HI
      ++ px tx (ty+5) SL_GOLD_HI
      ++ px (tx+2) (ty+5) SL_GOLD_HI
      ++ px (tx+4) (ty+5) SL_GOLD_HI
      ++ px (tx+6) (ty+5) SL_GOLD_HI
      ++ px (tx+1) (ty+4) SL_GOLD
      ++ px (tx+3) (ty+4) SL_GOLD
      ++ px (tx+5) (ty+4) SL_GOLD
      ++ px (tx+7) (ty+4) SL_GOLD)
  -- Head sides: gold trim
  ++ ((["right", "left"] : List String).flatMap fun fn =>
      let (fx, fy, fw, fh) := face (skinPart "head") fn
      fill fx fy fw fh SL_BLACK
      ++ hl fx (fy+fh-1) fw SL_GOLD)
  -- BODY: black plate, gold borders, crimson skull emblem
  ++ (let bx : Int := 20
      let byy : Int := 20
      fill bx byy 8 12 SL_BLACK
      ++ hl bx byy 8 SL_GOLD
      ++ vl bx byy 12 SL_GOLD_LO
      ++ vl (bx+7) byy 12 SL_GOLD_LO
      ++ hl (bx+1) (byy+2) 6 SL_GOLD_LO
      ++ hl (bx+1) (byy+7) 6 SL_GOLD_LO
      ++ vl (bx+1) (byy+2) 6 SL_GOLD_LO
      ++ vl (bx+6) (byy+2) 6 SL_GOLD_LO
      ++ px (bx+2) (byy+3) SL_CRIM_HI ++ px (bx+5) (byy+3) SL_CRIM_HI
      ++ px (bx+3) (byy+4) SL_CRIM ++ px (bx+4) (byy+4) SL_CRIM
      ++ px (bx+3) (byy+5) SL_CRIM_HI ++ px (bx+4) (byy+5) SL_CRIM_HI
      ++ px (bx+2) (byy+5) SL_CRIM ++ px (bx+5) (byy+5) SL_CRIM
      ++ px (bx+2) (byy+6) SL_CRIM ++ px (bx+5) (byy+6) SL_CRIM
      ++ px (bx+3) (byy+6) SL_CRIM_HI ++ px (bx+4) (byy+6) SL_CRIM_HI
      ++ hl bx (byy+8) 8 SL_GOLD
      ++ px (bx+3) (byy+8) SL_GOLD_HI
      ++ px (bx+4) (byy+8) SL_GOLD_HI
      ++ hl bx (byy+11) 8 SL_GOLD_LO)
  -- Body back: gold trim, crimson war cloak
  ++ (let bkx : Int := 32
      let bky : Int := 20
      fill bkx bky 8 12 SL_CRIM
      ++ hl bkx bky 8 SL_GOLD
      ++ vl bkx bky 12 SL_GOLD_LO
      ++ vl (bkx+7) bky 12 SL_GOLD_LO
      ++ vl (bkx+2) (bky+2) 8 (120, 0, 0, 255)
      ++ vl (bkx+5) (bky+2) 8 (120, 0, 0, 255)
      ++ hl bkx (bky+11) 8 SL_GOLD_LO)
  -- Arms: black with gold trim and crimson accent
  ++ (ARM_PARTS.flatMap fun part =>
      let (fx, fy, fw, fh) := face (skinPart part) "front"
      shade fx fy fw fh SL_BLACK SL_BLACK_HI SL_BLACK_LO
      ++ hl fx fy fw SL_GOLD
      ++ vl (fx+1) (fy+3) 4 SL_CRIM
      ++ hl fx (fy+fh-3) fw SL_GOLD_LO
      ++ fill fx (fy+fh-2) fw 2 SL_BLACK_LO)
  -- Legs: black with gold knee and boot trim
  ++ (LEG_PARTS.flatMap fun part =>
      let (fx, fy, fw, fh) := face (skinPart part) "front"
      shade fx fy fw fh SL_BLACK SL_BLACK_HI SL_BLACK_LO
      ++ px (fx+1) (fy+4) SL_GOLD
      ++ px (fx+2) (fy+4) SL_GOLD
      ++ px (fx+1) (fy+5) SL_GOLD_LO
      ++ px (fx+2) (fy+5) SL_GOLD_LO
      ++ hl fx (fy+fh-4) fw SL_GOLD_LO
      ++ fill fx (fy+fh-3) fw 3 SL_BLACK_LO)

-- ====================================================================
--  ARMOR MODEL TEXTURES (64x32)
-- ====================================================================

def ARM_UV : Faces := _faces (40,16) (4,12,4)

def LEG_UV : Faces := _faces (0,16) (4,12,4)

def BODY_UV : Faces := _faces (16,16) (8,12,4)

def HEAD_UV : Faces := _faces (0,0) (8,8,8)

/-- The chainmail checkerboard double loop
`for py in range(fy, fy+fh): for ppx in range(fx, fx+fw): ...`
with `base` where `(ppx + py) % 2 == 0` and `lo` elsewhere. -/
def checker (fx fy fw fh : Int) (base lo : Color) : List Write :=
  (List.range fh.toNat).flatMap fun (j : Nat) =>
    (List.range fw.toNat).map fun (i : Nat) =>
      (⟨fx + (i : Int), fy + (j : Int),
        if (fx + (i : Int) + (fy + (j : Int))) % 2 = 0 then base else lo⟩ : Write)

/-- `paint_armor_tier(main_img, legs_img, base, hi, lo, spec, accent,
accent2, chainmail, stitch, trim_all, glow)`: returns the traces of the
main texture and of the legs texture.  Python `None` defaults are
`Option` arguments; `if spec:` and `if trim_all and accent:` test for a
present value. -/
def paint_armor_tier (base hi lo : Color) (spec accent accent2 : Option Color)
    (chainmail stitch trim_all glow : Bool) : List Write × List Write :=
  let main_trace :=
    -- Helmet (head region)
    (HEAD_UV.flatMap fun nf =>
      let (fx, fy, fw, fh) := nf.2
      if nf.1 = "front" then
        shade fx fy fw fh base hi lo
        ++ fill (fx+1) (fy+fh-3) (fw-2) 2 lo
        ++ (match spec with | some s => px (fx+2) (fy+1) s | none => [])
        ++ (if trim_all then
              match accent with | some a => hl fx (fy+fh-1) fw a | none => []
            else [])
      else if nf.1 = "top" then
        shade fx fy fw fh hi hi base
        ++ (if trim_all then
              match accent with | some a => hl fx (fy+fh-1) fw a | none => []
            else [])
      else
        shade fx fy fw fh base hi lo
        ++ (if trim_all then
              match accent with | some a => hl fx (fy+fh-1) fw a | none => []
            else []))
    -- Chestplate (body region)
    ++ (BODY_UV.flatMap fun nf =>
      let (fx, fy, fw, fh) := nf.2
      if nf.1 = "front" then
        (if chainmail then
           checker fx fy fw fh base lo
           ++ hl fx fy fw hi
           ++ hl fx (fy+fh-1) fw lo
         else shade fx fy fw fh base hi lo)
        ++ (if stitch then
              vl (fx+2) (fy+1) (fh-2) lo ++ vl (fx+5) (fy+1) (fh-2) lo
            else [])
        ++ (match spec with
            | some s => px (fx+3) (fy+2) s ++ px (fx+4) (fy+2) s
            | none => [])
        ++ (match accent with
            | some a => if !chainmail then hl fx (fy + fh / 2) fw a else []
            | none => [])
        ++ (match accent2 with
            | some a2 => px (fx+3) (fy+4) a2 ++ px (fx+4) (fy+4) a2
            | none => [])
        ++ (if trim_all then
              match accent with
              | some a => hl fx fy fw a ++ hl fx (fy+fh-1) fw a
                          ++ vl fx fy fh a ++ vl (fx+fw-1) fy fh a
              | none => []
            else [])
        ++ (if glow then
              px (fx+2) (fy+3) (200, 160, 255, 255)
              ++ px (fx+5) (fy+3) (200, 160, 255, 255)
            else [])
      else
        shade fx fy fw fh base hi lo
        ++ (if chainmail then checker (fx+1) (fy+1) (fw-2) (fh-2) base lo else []))
    -- Arms (right arm region, mirrored for left)
    ++ (ARM_UV.flatMap fun nf =>
      let (fx, fy, fw, fh) := nf.2
      (if chainmail then checker fx fy fw fh base lo
       else shade fx fy fw fh base hi lo)
      ++ (if trim_all then
            match accent with | some a => hl fx fy fw a | none => []
          else []))
    -- Boots (leg region)
    ++ (LEG_UV.flatMap fun nf =>
      let (fx, fy, fw, fh) := nf.2
      shade fx fy fw fh base hi lo
      ++ (if trim_all then
            match accent with | some a => hl fx fy fw a | none => []
          else []))
  let legs_trace :=
    (BODY_UV.flatMap fun nf =>
      let (fx, fy, fw, fh) := nf.2
      shade fx fy fw fh base hi lo
      ++ (if chainmail && (nf.1 == "front" || nf.1 == "back") then
            checker (fx+1) (fy+1) (fw-2) (fh-2) base lo
          else []))
    ++ (LEG_UV.flatMap fun nf =>
      let (fx, fy, fw, fh) := nf.2
      (if chainmail then
         checker fx fy fw fh base lo
         ++ hl fx fy fw hi
         ++ hl fx (fy+fh-1) fw lo
       else shade fx fy fw fh base hi lo)
      ++ (if stitch then vl (fx+1) (fy+1) (fh-2) lo else [])
      ++ (if trim_all then
            match accent with | some a => hl fx fy fw a | none => []
          else []))
  (main_trace, legs_trace)

/-- Keyword parameters of `paint_armor_tier`, with the Python defaults.
Field order: base, hi, lo, spec, accent, accent2, chainmail, stitch,
trim_all, glow. -/
structure ArmorParams where
  base : Color
  hi : Color
  lo : Color
  spec : Option Color
  accent : Option Color
  accent2 : Option Color
  chainmail : Bool
  stitch : Bool
  trim_all : Bool
  glow : Bool

-- ====================================================================
--  ITEM ICON SHAPES (16x16 templates)
-- ====================================================================

def HELMET_SHAPE : List String := [
  "................",
  "................",
  ".....######.....",
  "....########....",
  "...##########...",
  "...##########...",
  "...##########...",
  "...##########...",
  "...##########...",
  "...##########...",
  "...###....###...",
  "...##......##...",
  "....#......#....",
  "................",
  "................",
  "................"]

def CHEST_SHAPE : List String := [
  "................",
  "................",
  "...##......##...",
  "...############.",
  "....##########..",
  "....##########..",
  "....##########..",
  "....##########..",
  "....##########..",
  "....##########..",
  "....##########..",
  ".....########...",
  ".....###..###...",
  "................",
  "................",
  "................"]

def LEGS_SHAPE : List String := [
  "................",
  "................",
  "....##########..",
  "....##########..",
  "....##########..",
  "....####..####..",
  "....####..####..",
  "....####..####..",
  "....####..####..",
  "....####..####..",
  "....####..####..",
  "....####..####..",
  "....####..####..",
  "................",
  "................",
  "................"]

def BOOTS_SHAPE : List String := [
  "................",
  "................",
  "................",
  "................",
  "................",
  "....###..###....",
  "....###..###....",
  "....###..###....",
  "....###..###....",
  "....###..###....",
  "...####..####...",
  "...####..####...",
  "..#####..#####..",
  "................",
  "................",
  "................"]

def TOKEN_SHAPE : List String := [
  "................",
  "................",
  ".....######.....",
  "....########....",
  "...##########...",
  "...##......##...",
  "...##......##...",
  "...##......##...",
  "...##......##...",
  "...##......##...",
  "...##########...",
  "....########....",
  ".....######.....",
  "................",
  "................",
  "................"]

def BLUEPRINT_SHAPE : List String := [
  "................",
  "...##########...",
  "..############..",
  "..##........##..",
  "..##........##..",
  "..##........##..",
  "..##........##..",
  "..##........##..",
  "..##........##..",
  "..##........##..",
  "..##........##..",
  "..##........##..",
  "..############..",
  "...##########...",
  "................",
  "................"]

/-- `shape[i]`, total (all accesses in the program are in range). -/
def rowAt (shape : List String) (i : Nat) : String := shape.getD i ""

/-- `row[i]`, total (all accesses in the program are in range). -/
def charAt (s : String) (i : Nat) : Char := s.toList.getD i ' '

/-- `paint_icon_from_shape(img, shape, base, hi, lo, outline)`: one
conditional putpixel per template cell, row-major, with the edge
shading rule of the source.  The `outline` keyword is computed but
never used by the source body. -/
def paint_icon_from_shape (shape : List String) (base hi lo : Color)
    (outline : Option Color) : List Write :=
  let _outline := outline.getD lo
  (List.range shape.length).flatMap fun y =>
    (List.range (rowAt shape y).length).flatMap fun x =>
      if charAt (rowAt shape y) x = '#' then
        let above := decide (0 < y) && (charAt (rowAt shape (y-1)) x == '#')
        let below := decide (y < 15) && (charAt (rowAt shape (y+1)) x == '#')
        let left  := decide (0 < x) && (charAt (rowAt shape y) (x-1) == '#')
        let right := decide (x < 15) && (charAt (rowAt shape y) (x+1) == '#')
        if !above || !below || !left || !right then
          if !above || !left then px x y hi
          else if !below || !right then px x y lo
          else px x y base
        else px x y base
      else []

-- Token center symbols (relative pixel positions)

def TOKEN_CROSS : List (Nat × Nat) :=
  [(7,5),(8,5),(7,6),(8,6),(6,7),(9,7),(7,7),(8,7),(6,8),(9,8),(7,8),(8,8),
   (7,9),(8,9),(7,10),(8,10)]

def TOKEN_STAR : List (Nat × Nat) :=
  [(7,5),(8,5),(6,6),(9,6),(7,6),(8,6),(5,7),(6,7),(7,7),(8,7),(9,7),(10,7),
   (5,8),(6,8),(7,8),(8,8),(9,8),(10,8),(6,9),(9,9),(7,9),(8,9),(7,10),(8,10)]

def TOKEN_CROWN : List (Nat × Nat) :=
  [(5,6),(6,5),(7,6),(8,6),(9,5),(10,6),(5,7),(6,7),(7,7),(8,7),(9,7),(10,7),
   (5,8),(6,8),(7,8),(8,8),(9,8),(10,8),(5,9),(6,9),(7,9),(8,9),(9,9),(10,9)]

-- Blueprint inner drawings

def BP_TOWER : List (Nat × Nat) :=
  [(7,4),(8,4),(7,5),(8,5),(6,6),(7,6),(8,6),(9,6),(6,7),(7,7),(8,7),(9,7),
   (7,8),(8,8),(7,9),(8,9),(7,10),(8,10),(7,11),(8,11)]

def BP_GATE : List (Nat × Nat) :=
  [(5,4),(6,4),(9,4),(10,4),(5,5),(6,5),(9,5),(10,5),(5,6),(6,6),(7,6),(8,6),
   (9,6),(10,6),(5,7),(6,7),(7,7),(8,7),(9,7),(10,7),(5,8),(6,8),(9,8),(10,8),
   (5,9),(6,9),(9,9),(10,9),(5,10),(6,10),(7,10),(8,10),(9,10),(10,10)]

def BP_HALL : List (Nat × Nat) :=
  [(4,5),(5,5),(6,5),(7,5),(8,5),(9,5),(10,5),(11,5),(4,6),(5,6),(6,6),(7,6),
   (8,6),(9,6),(10,6),(11,6),(5,7),(6,7),(7,7),(8,7),(9,7),(10,7),(5,8),(6,8),
   (7,8),(8,8),(9,8),(10,8),(5,9),(6,9),(7,9),(8,9),(9,9),(10,9),(5,10),(6,10),
   (7,10),(8,10),(9,10),(10,10)]

-- ====================================================================
--  GENERATION FUNCTIONS
-- ====================================================================

/-- Output directories of the source relative to the repository root
(`ROOT` in the source is the absolute repository path; the claims are
about the fixed relative locations, so `ROOT` is elided). -/
def ENTITY_DIR : String := "MegaKnights_RP/textures/entity"

def ITEMS_DIR : String := "MegaKnights_RP/textures/items"

def ARMOR_DIR : String := "MegaKnights_RP/textures/models/armor"

/-- The `skins` dict of `generate_entity_skins`, in insertion order. -/
def skins : List (String × List Write) :=
  [("mk_ally_knight", paint_ally_knight),
   ("mk_ally_archer", paint_ally_archer),
   ("mk_ally_wizard", paint_ally_wizard),
   ("mk_ally_dark_knight", paint_ally_dark_knight),
   ("mk_enemy_knight", paint_enemy_knight),
   ("mk_enemy_archer", paint_enemy_archer),
   ("mk_enemy_wizard", paint_enemy_wizard),
   ("mk_enemy_dark_knight", paint_enemy_dark_knight),
   ("mk_boss_siege_lord", paint_boss_siege_lord)]

/-- `generate_entity_skins()`: the 9 saved files, in save order, each
as (path, canvas, trace). -/
def generate_entity_skins : List (String × Canvas × List Write) :=
  skins.map fun nt => (ENTITY_DIR ++ "/" ++ nt.1 ++ ".png", new_skin, nt.2)

/-- The `tiers` dict of `generate_armor_textures`, in insertion order.
`ArmorParams` fields: base, hi, lo, spec, accent, accent2, chainmail,
stitch, trim_all, glow. -/
def tiers : List (String × ArmorParams) :=
  [("mk_page", ⟨PAGE, PAGE_HI, PAGE_LO, none, none, none, false, true, false, false⟩),
   ("mk_squire", ⟨SQUIRE, SQUIRE_HI, SQUIRE_LO, none, none, none, true, false, false, false⟩),
   ("mk_knight", ⟨KNIGHT, KNIGHT_HI, KNIGHT_LO, some KNIGHT_SPEC, none, none, false, false, false, false⟩),
   ("mk_champion", ⟨CHAMP, CHAMP_HI, CHAMP_LO, some CHAMP_SPEC, some CHAMP_GEM, some CHAMP_GEM, false, false, false, false⟩),
   ("mk_mega_knight", ⟨MEGA, MEGA_HI, MEGA_LO, none, some MEGA_GOLD, none, false, false, true, true⟩)]

/-- `generate_armor_textures()`: the 10 saved files (per tier: the
`_main` then the `_legs` texture), in save order. -/
def generate_armor_textures : List (String × Canvas × List Write) :=
  tiers.flatMap fun np =>
    let p := np.2
    let imgs := paint_armor_tier p.base p.hi p.lo p.spec p.accent p.accent2
                  p.chainmail p.stitch p.trim_all p.glow
    [(ARMOR_DIR ++ "/" ++ np.1 ++ "_main.png", new_armor_tex, imgs.1),
     (ARMOR_DIR ++ "/" ++ np.1 ++ "_legs.png", new_armor_tex, imgs.2)]

/-- The `tier_colors` dict of `generate_item_icons`, insertion order. -/
def tier_colors : List (String × Color × Color × Color) :=
  [("page", PAGE, PAGE_HI, PAGE_LO),
   ("squire", SQUIRE, SQUIRE_HI, SQUIRE_LO),
   ("knight", KNIGHT, KNIGHT_HI, KNIGHT_LO),
   ("champion", CHAMP, CHAMP_HI, CHAMP_LO),
   ("mega_knight", MEGA, MEGA_HI, MEGA_LO)]

/-- The `pieces` dict of `generate_item_icons`, insertion order. -/
def pieces : List (String × List String) :=
  [("helmet", HELMET_SHAPE),
   ("chestplate", CHEST_SHAPE),
   ("leggings", LEGS_SHAPE),
   ("boots", BOOTS_SHAPE)]

/-- The mega-knight gold trim loop of `generate_item_icons`: gold on
every `#` cell with no `#` cell directly above. -/
def mega_trim (shape : List String) : List Write :=
  (List.range shape.length).flatMap fun y =>
    (List.range (rowAt shape y).length).flatMap fun x =>
      if charAt (rowAt shape y) x = '#' then
        if !(decide (0 < y) && (charAt (rowAt shape (y-1)) x == '#')) then
          px x y MEGA_GOLD
        else []
      else []

/-- Body of the tier/piece loop of `generate_item_icons`: the base
shape paint plus the tier-specific detail writes. -/
def armor_icon_trace (tier piece : String) (shape : List String)
    (base hi lo : Color) : List Write :=
  paint_icon_from_shape shape base hi lo none
  ++ (if tier = "champion" then
        (if piece = "chestplate" then px 7 6 CHAMP_GEM ++ px 8 6 CHAMP_GEM else [])
        ++ (if piece = "helmet" then px 7 2 CHAMP_HI ++ px 8 2 CHAMP_HI else [])
      else [])
  ++ (if tier = "mega_knight" then
        mega_trim shape
        ++ (if piece = "chestplate" then px 7 6 MEGA_GLOW ++ px 8 6 MEGA_GLOW else [])
      else [])

/-- The `token_configs` list of `generate_item_icons`. -/
def token_configs : List (String × Color × Color × Color × List (Nat × Nat)) :=
  [("mk_squire_token", SQUIRE, SQUIRE_HI, SQUIRE_LO, TOKEN_CROSS),
   ("mk_knight_token", KNIGHT, KNIGHT_HI, KNIGHT_LO, TOKEN_CROSS),
   ("mk_champion_token", CHAMP, CHAMP_HI, CHAMP_LO, TOKEN_STAR),
   ("mk_mega_knight_token", MEGA, MEGA_HI, MEGA_LO, TOKEN_CROWN)]

/-- Body of the token loop of `generate_item_icons`: shape paint plus
the symbol pixels guarded by the template (`0 <= s < 16` checks are the
source's; the lower bounds are inherent in `Nat` coordinates). -/
def token_trace (base hi lo : Color) (symbol : List (Nat × Nat)) : List Write :=
  paint_icon_from_shape TOKEN_SHAPE base hi lo none
  ++ (let sym_color : Color := if base = MEGA then (255, 255, 255, 255) else (255, 240, 200, 255)
      let sym_color := if base = MEGA then MEGA_GOLD else sym_color
      symbol.flatMap fun s =>
        if decide (s.2 < 16) && decide (s.1 < 16)
            && (charAt (rowAt TOKEN_SHAPE s.2) s.1 == '#') then
          px s.1 s.2 sym_color
        else [])

-- Blueprint palette (local constants of `generate_item_icons`)

def bp_paper : Color := (212, 228, 247, 255)

def bp_paper_hi : Color := (232, 242, 255, 255)

def bp_paper_lo : Color := (170, 190, 220, 255)

def bp_ink : Color := (40, 70, 120, 255)

def bp_seal : Color := (180, 40, 40, 255)

/-- The `bp_configs` list of `generate_item_icons`. -/
def bp_configs : List (String × List (Nat × Nat)) :=
  [("mk_blueprint_small_tower", BP_TOWER),
   ("mk_blueprint_gatehouse", BP_GATE),
   ("mk_blueprint_great_hall", BP_HALL)]

/-- Body of the blueprint loop of `generate_item_icons`: shape paint,
template-guarded ink drawing, then the four wax-seal pixels. -/
def bp_trace (drawing : List (Nat × Nat)) : List Write :=
  paint_icon_from_shape BLUEPRINT_SHAPE bp_paper bp_paper_hi bp_paper_lo none
  ++ (drawing.flatMap fun d =>
      if decide (d.2 < 16) && decide (d.1 < 16)
          && (charAt (rowAt BLUEPRINT_SHAPE d.2) d.1 == '#') then
        px d.1 d.2 bp_ink
      else [])
  ++ px 10 10 bp_seal
  ++ px 11 10 bp_seal
  ++ px 10 11 bp_seal
  ++ px 11 11 bp_seal

/-- `generate_item_icons()`: the 27 saved files, in save order
(20 armor piece icons, then 4 tokens, then 3 blueprints). -/
def generate_item_icons : List (String × Canvas × List Write) :=
  (tier_colors.flatMap fun tc =>
    pieces.map fun ps =>
      (ITEMS_DIR ++ "/mk_" ++ tc.1 ++ "_" ++ ps.1 ++ ".png", new_icon,
       armor_icon_trace tc.1 ps.1 ps.2 tc.2.1 tc.2.2.1 tc.2.2.2))
  ++ (token_configs.map fun c =>
      (ITEMS_DIR ++ "/" ++ c.1 ++ ".png", new_icon,
       token_trace c.2.1 c.2.2.1 c.2.2.2.1 c.2.2.2.2))
  ++ (bp_configs.map fun c =>
      (ITEMS_DIR ++ "/" ++ c.1 ++ ".png", new_icon, bp_trace c.2))

-- ====================================================================
--  MAIN
-- ====================================================================

/-- All images written by one run of `main()`, in save order. -/
def outputs : List (String × Canvas × List Write) :=
  generate_entity_skins ++ generate_armor_textures ++ generate_item_icons

/-- The paths of all files written by one run of `main()`. -/
def writtenPaths : List String := outputs.map fun e => e.1

/-- A filesystem effect of the script. -/
inductive FsEffect where
  | mkdir (path : String)
  | writeFile (path : String)
  | readFile (path : String)
deriving DecidableEq

/-- Whether an effect reads the filesystem. -/
def FsEffect.isRead : FsEffect → Bool
  | .readFile _ => true
  | _ => false

/-- The path an effect touches. -/
def FsEffect.path : FsEffect → String
  | .mkdir p => p
  | .writeFile p => p
  | .readFile p => p

/-- The filesystem effect trace of `main()`: the three `os.makedirs`
calls, then every `img.save` of the three generation functions, in
program order.  `print` goes to stdout and touches no file. -/
def mainEffects : List FsEffect :=
  [.mkdir ENTITY_DIR, .mkdir ITEMS_DIR, .mkdir ARMOR_DIR]
  ++ (generate_entity_skins.map fun e => .writeFile e.1)
  ++ (generate_armor_textures.map fun e => .writeFile e.1)
  ++ (generate_item_icons.map fun e => .writeFile e.1)

/-- One run of the texture tool, as a function of the run index: the
script consumes no input of any kind, so the result is the same
constant output list for every run. -/
def runTextureTool (_run : Unit) : List (String × Canvas × List Write) := outputs

/-- `main()` as a function of the command line: the script never
inspects `sys.argv`, so the argument vector is ignored. -/
def mainWithArgv (_argv : List String) : List FsEffect := mainEffects

/-- String prefix test over the underlying character lists. -/
def startsWithS (pre s : String) : Bool := pre.toList.isPrefixOf s.toList

/-- String suffix test over the underlying character lists. -/
def endsWithS (sfx s : String) : Bool := sfx.toList.isSuffixOf s.toList

/-- `#` template cell test at `Int` coordinates. -/
def hashAt (shape : List String) (x y : Int) : Bool :=
  decide (0 ≤ x) && decide (x < 16) && decide (0 ≤ y) && decide (y < 16)
    && (charAt (rowAt shape y.toNat) x.toNat == '#')

/-- `.` template cell test at `Int` coordinates. -/
def dotAt (shape : List String) (x y : Int) : Bool :=
  decide (0 ≤ x) && decide (x < 16) && decide (0 ≤ y) && decide (y < 16)
    && (charAt (rowAt shape y.toNat) x.toNat == '.')

-- ====================================================================
--  ANALYTICS SCRIPTS (modelled from the spec)
-- ====================================================================

/-- Modelled from the spec: the analytics/status scripts of the
repository are not under `src/` (only `tools/generate_textures.py`
is).  Per the spec's error-handling section they parse JSONL input
line by line and "malformed JSON lines are skipped": a parser applied
to each line, keeping the successfully parsed records in order. -/
def skipMalformed {α : Type} (parse : String → Option α) (lines : List String) : List α :=
  lines.filterMap parse

/-- Modelled from the spec: a run of an analytics script on its input
file.  "missing files produce a short diagnostic message and a
non-zero exit status"; a present file is parsed with malformed lines
skipped, with empty diagnostic and exit status 0.  Result:
(records, diagnostic, exit status). -/
def runAnalytics {α : Type} (parse : String → Option α) :
    Option (List String) → List α × String × Nat
  | none => ([], "error: input file not found", 1)
  | some lines => (skipMalformed parse lines, "", 0)

-- ====================================================================
--  HELPER LEMMAS
-- ====================================================================

theorem foldl_updAt_append (a b : Int) (t1 t2 : List Write) (acc : Color) :
    (t1 ++ t2).foldl (updAt a b) acc = t2.foldl (updAt a b) (t1.foldl (updAt a b) acc) :=
  List.foldl_append _ _ _ _

theorem foldl_hseg (a b x y : Int) (c : Color) (n : Nat) (acc : Color) :
    ((List.range n).map fun (i : Nat) => (⟨x + (i : Int), y, c⟩ : Write)).foldl (updAt a b) acc
      = if b = y ∧ x ≤ a ∧ a < x + n then c else acc := by
  induction n with
  | zero =>
    simp only [List.range_zero, List.map_nil, List.foldl_nil]
    rw [if_neg (by omega)]
  | succ n ih =>
    rw [List.range_succ, List.map_append, foldl_updAt_append, ih]
    dsimp only [List.map_cons, List.map_nil, List.foldl_cons, List.foldl_nil, updAt]
    push_cast
    split_ifs <;> first | rfl | (exfalso; omega)

theorem foldl_vseg (a b x y : Int) (c : Color) (n : Nat) (acc : Color) :
    ((List.range n).map fun (i : Nat) => (⟨x, y + (i : Int), c⟩ : Write)).foldl (updAt a b) acc
      = if a = x ∧ y ≤ b ∧ b < y + n then c else acc := by
  induction n with
  | zero =>
    simp only [List.range_zero, List.map_nil, List.foldl_nil]
    rw [if_neg (by omega)]
  | succ n ih =>
    rw [List.range_succ, List.map_append, foldl_updAt_append, ih]
    dsimp only [List.map_cons, List.map_nil, List.foldl_cons, List.foldl_nil, updAt]
    push_cast
    split_ifs <;> first | rfl | (exfalso; omega)

theorem foldl_fillseg (a b x y : Int) (c : Color) (w h : Nat) (acc : Color) :
    (((List.range h).flatMap fun (j : Nat) =>
        (List.range w).map fun (i : Nat) => (⟨x + (i : Int), y + (j : Int), c⟩ : Write))).foldl
        (updAt a b) acc
      = if y ≤ b ∧ b < y + h ∧ x ≤ a ∧ a < x + w then c else acc := by
  induction h with
  | zero =>
    simp only [List.range_zero, List.flatMap_nil, List.foldl_nil]
    rw [if_neg (by omega)]
  | succ h ih =>
    rw [List.range_succ, List.flatMap_append, foldl_updAt_append, ih]
    simp only [List.flatMap_cons, List.flatMap_nil, List.append_nil]
    rw [foldl_hseg]
    push_cast
    split_ifs <;> first | rfl | (exfalso; omega)

theorem foldl_updAt_untouched (a b : Int) (t : List Write) (acc : Color)
    (h : ∀ w ∈ t, ¬(w.x = a ∧ w.y = b)) : t.foldl (updAt a b) acc = acc := by
  induction t generalizing acc with
  | nil => rfl
  | cons w t ih =>
    rw [List.foldl_cons]
    have h1 : updAt a b acc w = acc := if_neg (h w (List.mem_cons_self w t))
    rw [h1]
    exact ih acc fun w' hw' => h w' (List.mem_cons_of_mem _ hw')

theorem hash_dot_clash (shape : List String) (x y : Int)
    (h1 : hashAt shape x y = true) (h2 : dotAt shape x y = true) : False := by
  unfold hashAt at h1
  unfold dotAt at h2
  simp only [Bool.and_eq_true, beq_iff_eq, decide_eq_true_eq] at h1 h2
  exact absurd (h1.2.symm.trans h2.2) (by decide)

theorem icon_dots_clear (shape : List String) (t : List Write)
    (hall : (t.all fun w => hashAt shape w.x w.y) = true) :
    (∀ x y : Int, dotAt shape x y = true → pixelAt (fun _ _ => T) t x y = T) ∧
    (∀ w ∈ t, hashAt shape w.x w.y = true) := by
  have hmem := List.all_eq_true.mp hall
  refine ⟨?_, hmem⟩
  intro x y hdot
  unfold pixelAt
  apply foldl_updAt_untouched
  intro w hw hxy
  have h := hmem w hw
  rw [hxy.1, hxy.2] at h
  exact hash_dot_clash shape x y h hdot

theorem outputs_eq : outputs =
    [("MegaKnights_RP/textures/entity/mk_ally_knight.png", new_skin, paint_ally_knight),
     ("MegaKnights_RP/textures/entity/mk_ally_archer.png", new_skin, paint_ally_archer),
     ("MegaKnights_RP/textures/entity/mk_ally_wizard.png", new_skin, paint_ally_wizard),
     ("MegaKnights_RP/textures/entity/mk_ally_dark_knight.png", new_skin, paint_ally_dark_knight),
     ("MegaKnights_RP/textures/entity/mk_enemy_knight.png", new_skin, paint_enemy_knight),
     ("MegaKnights_RP/textures/entity/mk_enemy_archer.png", new_skin, paint_enemy_archer),
     ("MegaKnights_RP/textures/entity/mk_enemy_wizard.png", new_skin, paint_enemy_wizard),
     ("MegaKnights_RP/textures/entity/mk_enemy_dark_knight.png", new_skin, paint_enemy_dark_knight),
     ("MegaKnights_RP/textures/entity/mk_boss_siege_lord.png", new_skin, paint_boss_siege_lord),
     ("MegaKnights_RP/textures/models/armor/mk_page_main.png", new_armor_tex,
       (paint_armor_tier PAGE PAGE_HI PAGE_LO none none none false true false false).1),
     ("MegaKnights_RP/textures/models/armor/mk_page_legs.png", new_armor_tex,
       (paint_armor_tier PAGE PAGE_HI PAGE_LO none none none false true false false).2),
     ("MegaKnights_RP/textures/models/armor/mk_squire_main.png", new_armor_tex,
       (paint_armor_tier SQUIRE SQUIRE_HI SQUIRE_LO none none none true false false false).1),
     ("MegaKnights_RP/textures/models/armor/mk_squire_legs.png", new_armor_tex,
       (paint_armor_tier SQUIRE SQUIRE_HI SQUIRE_LO none none none true false false false).2),
     ("MegaKnights_RP/textures/models/armor/mk_knight_main.png", new_armor_tex,
       (paint_armor_tier KNIGHT KNIGHT_HI KNIGHT_LO (some KNIGHT_SPEC) none none false false false false).1),
     ("MegaKnights_RP/textures/models/armor/mk_knight_legs.png", new_armor_tex,
       (paint_armor_tier KNIGHT KNIGHT_HI KNIGHT_LO (some KNIGHT_SPEC) none none false false false false).2),
     ("MegaKnights_RP/textures/models/armor/mk_champion_main.png", new_armor_tex,
       (paint_armor_tier CHAMP CHAMP_HI CHAMP_LO (some CHAMP_SPEC) (some CHAMP_GEM) (some CHAMP_GEM) false false false false).1),
     ("MegaKnights_RP/textures/models/armor/mk_champion_legs.png", new_armor_tex,
       (paint_armor_tier CHAMP CHAMP_HI CHAMP_LO (some CHAMP_SPEC) (some CHAMP_GEM) (some CHAMP_GEM) false false false false).2),
     ("MegaKnights_RP/textures/models/armor/mk_mega_knight_main.png", new_armor_tex,
       (paint_armor_tier MEGA MEGA_HI MEGA_LO none (some MEGA_GOLD) none false false true true).1),
     ("MegaKnights_RP/textures/models/armor/mk_mega_knight_legs.png", new_armor_tex,
       (paint_armor_tier MEGA MEGA_HI MEGA_LO none (some MEGA_GOLD) none false false true true).2),
     ("MegaKnights_RP/textures/items/mk_page_helmet.png", new_icon,
       armor_icon_trace "page" "helmet" HELMET_SHAPE PAGE PAGE_HI PAGE_LO),
     ("MegaKnights_RP/textures/items/mk_page_chestplate.png", new_icon,
       armor_icon_trace "page" "chestplate" CHEST_SHAPE PAGE PAGE_HI PAGE_LO),
     ("MegaKnights_RP/textures/items/mk_page_leggings.png", new_icon,
       armor_icon_trace "page" "leggings" LEGS_SHAPE PAGE PAGE_HI PAGE_LO),
     ("MegaKnights_RP/textures/items/mk_page_boots.png", new_icon,
       armor_icon_trace "page" "boots" BOOTS_SHAPE PAGE PAGE_HI PAGE_LO),
     ("MegaKnights_RP/textures/items/mk_squire_helmet.png", new_icon,
       armor_icon_trace "squire" "helmet" HELMET_SHAPE SQUIRE SQUIRE_HI SQUIRE_LO),
     ("MegaKnights_RP/textures/items/mk_squire_chestplate.png", new_icon,
       armor_icon_trace "squire" "chestplate" CHEST_SHAPE SQUIRE SQUIRE_HI SQUIRE_LO),
     ("MegaKnights_RP/textures/items/mk_squire_leggings.png", new_icon,
       armor_icon_trace "squire" "leggings" LEGS_SHAPE SQUIRE SQUIRE_HI SQUIRE_LO),
     ("MegaKnights_RP/textures/items/mk_squire_boots.png", new_icon,
       armor_icon_trace "squire" "boots" BOOTS_SHAPE SQUIRE SQUIRE_HI SQUIRE_LO),
     ("MegaKnights_RP/textures/items/mk_knight_helmet.png", new_icon,
       armor_icon_trace "knight" "helmet" HELMET_SHAPE KNIGHT KNIGHT_HI KNIGHT_LO),
     ("MegaKnights_RP/textures/items/mk_knight_chestplate.png", new_icon,
       armor_icon_trace "knight" "chestplate" CHEST_SHAPE KNIGHT KNIGHT_HI KNIGHT_LO),
     ("MegaKnights_RP/textures/items/mk_knight_leggings.png", new_icon,
       armor_icon_trace "knight" "leggings" LEGS_SHAPE KNIGHT KNIGHT_HI KNIGHT_LO),
     ("MegaKnights_RP/textures/items/mk_knight_boots.png", new_icon,
       armor_icon_trace "knight" "boots" BOOTS_SHAPE KNIGHT KNIGHT_HI KNIGHT_LO),
     ("MegaKnights_RP/textures/items/mk_champion_helmet.png", new_icon,
       armor_icon_trace "champion" "helmet" HELMET_SHAPE CHAMP CHAMP_HI CHAMP_LO),
     ("MegaKnights_RP/textures/items/mk_champion_chestplate.png", new_icon,
       armor_icon_trace "champion" "chestplate" CHEST_SHAPE CHAMP CHAMP_HI CHAMP_LO),
     ("MegaKnights_RP/textures/items/mk_champion_leggings.png", new_icon,
       armor_icon_trace "champion" "leggings" LEGS_SHAPE CHAMP CHAMP_HI CHAMP_LO),
     ("MegaKnights_RP/textures/items/mk_champion_boots.png", new_icon,
       armor_icon_trace "champion" "boots" BOOTS_SHAPE CHAMP CHAMP_HI CHAMP_LO),
     ("MegaKnights_RP/textures/items/mk_mega_knight_helmet.png", new_icon,
       armor_icon_trace "mega_knight" "helmet" HELMET_SHAPE MEGA MEGA_HI MEGA_LO),
     ("MegaKnights_RP/textures/items/mk_mega_knight_chestplate.png", new_icon,
       armor_icon_trace "mega_knight" "chestplate" CHEST_SHAPE MEGA MEGA_HI MEGA_LO),
     ("MegaKnights_RP/textures/items/mk_mega_knight_leggings.png", new_icon,
       armor_icon_trace "mega_knight" "leggings" LEGS_SHAPE MEGA MEGA_HI MEGA_LO),
     ("MegaKnights_RP/textures/items/mk_mega_knight_boots.png", new_icon,
       armor_icon_trace "mega_knight" "boots" BOOTS_SHAPE MEGA MEGA_HI MEGA_LO),
     ("MegaKnights_RP/textures/items/mk_squire_token.png", new_icon,
       token_trace SQUIRE SQUIRE_HI SQUIRE_LO TOKEN_CROSS),
     ("MegaKnights_RP/textures/items/mk_knight_token.png", new_icon,
       token_trace KNIGHT KNIGHT_HI KNIGHT_LO TOKEN_CROSS),
     ("MegaKnights_RP/textures/items/mk_champion_token.png", new_icon,
       token_trace CHAMP CHAMP_HI CHAMP_LO TOKEN_STAR),
     ("MegaKnights_RP/textures/items/mk_mega_knight_token.png", new_icon,
       token_trace MEGA MEGA_HI MEGA_LO TOKEN_CROWN),
     ("MegaKnights_RP/textures/items/mk_blueprint_small_tower.png", new_icon, bp_trace BP_TOWER),
     ("MegaKnights_RP/textures/items/mk_blueprint_gatehouse.png", new_icon, bp_trace BP_GATE),
     ("MegaKnights_RP/textures/items/mk_blueprint_great_hall.png", new_icon, bp_trace BP_HALL)] := by
  rfl

-- Per-image bounds checks (one per saved file, in save order).

theorem ok_s1 : okTrace new_skin paint_ally_knight = true := by decide

theorem ok_s2 : okTrace new_skin paint_ally_archer = true := by decide

theorem ok_s3 : okTrace new_skin paint_ally_wizard = true := by decide

theorem ok_s4 : okTrace new_skin paint_ally_dark_knight = true := by decide

theorem ok_s5 : okTrace new_skin paint_enemy_knight = true := by decide

theorem ok_s6 : okTrace new_skin paint_enemy_archer = true := by decide

theorem ok_s7 : okTrace new_skin paint_enemy_wizard = true := by decide

theorem ok_s8 : okTrace new_skin paint_enemy_dark_knight = true := by decide

theorem ok_s9 : okTrace new_skin paint_boss_siege_lord = true := by decide

theorem ok_a1m : okTrace new_armor_tex
    (paint_armor_tier PAGE PAGE_HI PAGE_LO none none none false true false false).1 = true := by decide

theorem ok_a1l : okTrace new_armor_tex
    (paint_armor_tier PAGE PAGE_HI PAGE_LO none none none false true false false).2 = true := by decide

theorem ok_a2m : okTrace new_armor_tex
    (paint_armor_tier SQUIRE SQUIRE_HI SQUIRE_LO none none none true false false false).1 = true := by decide

theorem ok_a2l : okTrace new_armor_tex
    (paint_armor_tier SQUIRE SQUIRE_HI SQUIRE_LO none none none true false false false).2 = true := by decide

theorem ok_a3m : okTrace new_armor_tex
    (paint_armor_tier KNIGHT KNIGHT_HI KNIGHT_LO (some KNIGHT_SPEC) none none false false false false).1 = true := by decide

theorem ok_a3l : okTrace new_armor_tex
    (paint_armor_tier KNIGHT KNIGHT_HI KNIGHT_LO (some KNIGHT_SPEC) none none false false false false).2 = true := by decide

theorem ok_a4m : okTrace new_armor_tex
    (paint_armor_tier CHAMP CHAMP_HI CHAMP_LO (some CHAMP_SPEC) (some CHAMP_GEM) (some CHAMP_GEM) false false false false).1 = true := by decide

theorem ok_a4l : okTrace new_armor_tex
    (paint_armor_tier CHAMP CHAMP_HI CHAMP_LO (some CHAMP_SPEC) (some CHAMP_GEM) (some CHAMP_GEM) false false false false).2 = true := by decide

theorem ok_a5m : okTrace new_armor_tex
    (paint_armor_tier MEGA MEGA_HI MEGA_LO none (some MEGA_GOLD) none false false true true).1 = true := by decide

theorem ok_a5l : okTrace new_armor_tex
    (paint_armor_tier MEGA MEGA_HI MEGA_LO none (some MEGA_GOLD) none false false true true).2 = true := by decide

theorem ok_i1 : okTrace new_icon (armor_icon_trace "page" "helmet" HELMET_SHAPE PAGE PAGE_HI PAGE_LO) = true := by decide

theorem ok_i2 : okTrace new_icon (armor_icon_trace "page" "chestplate" CHEST_SHAPE PAGE PAGE_HI PAGE_LO) = true := by decide

theorem ok_i3 : okTrace new_icon (armor_icon_trace "page" "leggings" LEGS_SHAPE PAGE PAGE_HI PAGE_LO) = true := by decide

theorem ok_i4 : okTrace new_icon (armor_icon_trace "page" "boots" BOOTS_SHAPE PAGE PAGE_HI PAGE_LO) = true := by decide

theorem ok_i5 : okTrace new_icon (armor_icon_trace "squire" "helmet" HELMET_SHAPE SQUIRE SQUIRE_HI SQUIRE_LO) = true := by decide

theorem ok_i6 : okTrace new_icon (armor_icon_trace "squire" "chestplate" CHEST_SHAPE SQUIRE SQUIRE_HI SQUIRE_LO) = true := by decide

theorem ok_i7 : okTrace new_icon (armor_icon_trace "squire" "leggings" LEGS_SHAPE SQUIRE SQUIRE_HI SQUIRE_LO) = true := by decide

theorem ok_i8 : okTrace new_icon (armor_icon_trace "squire" "boots" BOOTS_SHAPE SQUIRE SQUIRE_HI SQUIRE_LO) = true := by decide

theorem ok_i9 : okTrace new_icon (armor_icon_trace "knight" "helmet" HELMET_SHAPE KNIGHT KNIGHT_HI KNIGHT_LO) = true := by decide

theorem ok_i10 : okTrace new_icon (armor_icon_trace "knight" "chestplate" CHEST_SHAPE KNIGHT KNIGHT_HI KNIGHT_LO) = true := by decide

theorem ok_i11 : okTrace new_icon (armor_icon_trace "knight" "leggings" LEGS_SHAPE KNIGHT KNIGHT_HI KNIGHT_LO) = true := by decide

theorem ok_i12 : okTrace new_icon (armor_icon_trace "knight" "boots" BOOTS_SHAPE KNIGHT KNIGHT_HI KNIGHT_LO) = true := by decide

theorem ok_i13 : okTrace new_icon (armor_icon_trace "champion" "helmet" HELMET_SHAPE CHAMP CHAMP_HI CHAMP_LO) = true := by decide

theorem ok_i14 : okTrace new_icon (armor_icon_trace "champion" "chestplate" CHEST_SHAPE CHAMP CHAMP_HI CHAMP_LO) = true := by decide

theorem ok_i15 : okTrace new_icon (armor_icon_trace "champion" "leggings" LEGS_SHAPE CHAMP CHAMP_HI CHAMP_LO) = true := by decide

theorem ok_i16 : okTrace new_icon (armor_icon_trace "champion" "boots" BOOTS_SHAPE CHAMP CHAMP_HI CHAMP_LO) = true := by decide

theorem ok_i17 : okTrace new_icon (armor_icon_trace "mega_knight" "helmet" HELMET_SHAPE MEGA MEGA_HI MEGA_LO) = true := by decide

theorem ok_i18 : okTrace new_icon (armor_icon_trace "mega_knight" "chestplate" CHEST_SHAPE MEGA MEGA_HI MEGA_LO) = true := by decide

theorem ok_i19 : okTrace new_icon (armor_icon_trace "mega_knight" "leggings" LEGS_SHAPE MEGA MEGA_HI MEGA_LO) = true := by decide

theorem ok_i20 : okTrace new_icon (armor_icon_trace "mega_knight" "boots" BOOTS_SHAPE MEGA MEGA_HI MEGA_LO) = true := by decide

theorem ok_t1 : okTrace new_icon (token_trace SQUIRE SQUIRE_HI SQUIRE_LO TOKEN_CROSS) = true := by decide

theorem ok_t2 : okTrace new_icon (token_trace KNIGHT KNIGHT_HI KNIGHT_LO TOKEN_CROSS) = true := by decide

theorem ok_t3 : okTrace new_icon (token_trace CHAMP CHAMP_HI CHAMP_LO TOKEN_STAR) = true := by decide

theorem ok_t4 : okTrace new_icon (token_trace MEGA MEGA_HI MEGA_LO TOKEN_CROWN) = true := by decide

theorem ok_b1 : okTrace new_icon (bp_trace BP_TOWER) = true := by decide

theorem ok_b2 : okTrace new_icon (bp_trace BP_GATE) = true := by decide

theorem ok_b3 : okTrace new_icon (bp_trace BP_HALL) = true := by decide

-- ====================================================================
--  CLAIM THEOREMS
-- ====================================================================

/-- C1: The texture generator is deterministic and pixel-exact: any
two runs produce identical output lists — every painter's trace, hence
every pixel buffer, is a fixed function of the hard-coded coordinate
tables and palette constants, with no dependence on any external
input (the run takes no input at all). -/
theorem c1_deterministic_pixel_exact :
    ∀ r1 r2 : Unit, runTextureTool r1 = runTextureTool r2 :=
  fun _ _ => rfl

/-- C2: A full run of `main` writes exactly 46 PNG files at fixed
relative paths: 9 under `textures/entity`, 10 under
`textures/models/armor` (5 of `_main` and 5 of `_legs`), and 27 under
`textures/items` (of which 4 tokens and 3 blueprints, the other 20
being the tier/piece armor icons); all distinct, all `.png`, and none
anywhere else. -/
theorem c2_output_file_set :
    writtenPaths.length = 46
    ∧ (writtenPaths.countP fun p => startsWithS (ENTITY_DIR ++ "/") p) = 9
    ∧ (writtenPaths.countP fun p => startsWithS (ARMOR_DIR ++ "/") p) = 10
    ∧ (writtenPaths.countP fun p => startsWithS (ITEMS_DIR ++ "/") p) = 27
    ∧ (writtenPaths.countP fun p => endsWithS "_main.png" p) = 5
    ∧ (writtenPaths.countP fun p => endsWithS "_legs.png" p) = 5
    ∧ (writtenPaths.countP fun p => endsWithS "_token.png" p) = 4
    ∧ (writtenPaths.countP fun p => startsWithS (ITEMS_DIR ++ "/mk_blueprint_") p) = 3
    ∧ (writtenPaths.all fun p =>
        startsWithS (ENTITY_DIR ++ "/") p || startsWithS (ARMOR_DIR ++ "/") p
          || startsWithS (ITEMS_DIR ++ "/") p) = true
    ∧ (writtenPaths.all fun p => endsWithS ".png" p) = true
    ∧ writtenPaths.Nodup :=
  ⟨by decide, by decide, by decide, by decide, by decide, by decide,
   by decide, by decide, by decide, by decide, by decide⟩

/-- C3: Every image the tool writes is RGBA with the fixed dimensions
of its category: every entity skin 64x64, every armor model texture
64x32, every icon 16x16. -/
theorem c3_image_formats :
    (generate_entity_skins.all fun e =>
      decide (e.2.1.width = 64 ∧ e.2.1.height = 64 ∧ e.2.1.mode = "RGBA")) = true
    ∧ (generate_armor_textures.all fun e =>
      decide (e.2.1.width = 64 ∧ e.2.1.height = 32 ∧ e.2.1.mode = "RGBA")) = true
    ∧ (generate_item_icons.all fun e =>
      decide (e.2.1.width = 16 ∧ e.2.1.height = 16 ∧ e.2.1.mode = "RGBA")) = true :=
  ⟨by decide, by decide, by decide⟩

/-- C4: Every pixel write performed by any painter invoked from `main`
stays inside its canvas: for every putpixel event of every generated
image (64x64 skins, 64x32 armor textures, 16x16 icons) the coordinates
satisfy `0 <= x < width` and `0 <= y < height`, so `putpixel`'s
out-of-bounds error branch is unreachable. -/
theorem c4_all_writes_in_bounds :
    ∀ e ∈ outputs, okTrace e.2.1 e.2.2 = true := by
  rw [outputs_eq]
  simp only [List.forall_mem_cons]
  exact ⟨ok_s1, ok_s2, ok_s3, ok_s4, ok_s5, ok_s6, ok_s7, ok_s8, ok_s9,
    ok_a1m, ok_a1l, ok_a2m, ok_a2l, ok_a3m, ok_a3l, ok_a4m, ok_a4l, ok_a5m, ok_a5l,
    ok_i1, ok_i2, ok_i3, ok_i4, ok_i5, ok_i6, ok_i7, ok_i8, ok_i9, ok_i10,
    ok_i11, ok_i12, ok_i13, ok_i14, ok_i15, ok_i16, ok_i17, ok_i18, ok_i19, ok_i20,
    ok_t1, ok_t2, ok_t3, ok_t4, ok_b1, ok_b2, ok_b3,
    fun x hx => absurd hx (List.not_mem_nil x)⟩

/-- Witness for C4 at the first generated file. -/
theorem c4_all_writes_in_bounds_witness :
    okTrace new_skin paint_ally_knight = true :=
  c4_all_writes_in_bounds
    ("MegaKnights_RP/textures/entity/mk_ally_knight.png", new_skin, paint_ally_knight)
    (by rw [outputs_eq]; exact List.mem_cons_self _ _)

/-- C5: For every armor-piece icon and every token icon, every
position holding `.` in the governing 16x16 shape template is fully
transparent `(0, 0, 0, 0)` in the saved image, and every putpixel
event of the icon's trace (shape paint, tier details, mega-knight gold
trim, token symbol) lands on a position whose template cell is `#`. -/
theorem c5_icon_template_invariant :
    (∀ tc ∈ tier_colors, ∀ ps ∈ pieces,
      (∀ x y : Int, dotAt ps.2 x y = true →
         imagePixel new_icon (armor_icon_trace tc.1 ps.1 ps.2 tc.2.1 tc.2.2.1 tc.2.2.2) x y = T)
      ∧ (∀ w ∈ armor_icon_trace tc.1 ps.1 ps.2 tc.2.1 tc.2.2.1 tc.2.2.2,
           hashAt ps.2 w.x w.y = true)) ∧
    (∀ c ∈ token_configs,
      (∀ x y : Int, dotAt TOKEN_SHAPE x y = true →
         imagePixel new_icon (token_trace c.2.1 c.2.2.1 c.2.2.2.1 c.2.2.2.2) x y = T)
      ∧ (∀ w ∈ token_trace c.2.1 c.2.2.1 c.2.2.2.1 c.2.2.2.2,
           hashAt TOKEN_SHAPE w.x w.y = true)) := by
  constructor
  · intro tc htc ps hps
    simp only [tier_colors, List.mem_cons, List.not_mem_nil, or_false] at htc
    simp only [pieces, List.mem_cons, List.not_mem_nil, or_false] at hps
    rcases htc with rfl | rfl | rfl | rfl | rfl <;>
      rcases hps with rfl | rfl | rfl | rfl <;>
        exact icon_dots_clear _ _ (by decide)
  · intro c hc
    simp only [token_configs, List.mem_cons, List.not_mem_nil, or_false] at hc
    rcases hc with rfl | rfl | rfl | rfl <;>
      exact icon_dots_clear _ _ (by decide)

/-- Witness for C5: the top-left pixel of the page helmet icon, a `.`
cell of its template, is transparent. -/
theorem c5_icon_template_invariant_witness :
    imagePixel new_icon (armor_icon_trace "page" "helmet" HELMET_SHAPE PAGE PAGE_HI PAGE_LO) 0 0 = T :=
  (c5_icon_template_invariant.1 ("page", PAGE, PAGE_HI, PAGE_LO) (by simp [tier_colors])
    ("helmet", HELMET_SHAPE) (by simp [pieces])).1 0 0 (by decide)

/-- C6: A run of the texture generator performs no filesystem reads
(in particular it never reads or modifies any task-list JSON); its
only filesystem effects are creating the three output directories and
writing the generated PNG image files. -/
theorem c6_filesystem_frame :
    mainEffects = [FsEffect.mkdir ENTITY_DIR, FsEffect.mkdir ITEMS_DIR, FsEffect.mkdir ARMOR_DIR]
        ++ (writtenPaths.map FsEffect.writeFile)
    ∧ (mainEffects.all fun e => !e.isRead) = true
    ∧ (mainEffects.all fun e =>
        match e with
        | FsEffect.mkdir p => (p == ENTITY_DIR) || (p == ITEMS_DIR) || (p == ARMOR_DIR)
        | FsEffect.writeFile p => endsWithS ".png" p
        | FsEffect.readFile _ => false) = true :=
  ⟨by decide, by decide, by decide⟩

/-- C7: spec-modelled error handling of the analytics scripts (not
under `src/`): a missing input file yields the fixed short diagnostic
and exit status 1 (non-zero); with a present file, a malformed
(unparseable) line is skipped — it contributes nothing to the parsed
records — while a well-formed line contributes exactly its record. -/
theorem c7_error_handling :
    (∀ (α : Type) (parse : String → Option α),
       runAnalytics parse none = ([], "error: input file not found", 1)
       ∧ (runAnalytics parse none).2.2 ≠ 0
       ∧ (runAnalytics parse none).2.1 ≠ "")
    ∧ (∀ (α : Type) (parse : String → Option α) (l : String) (lines : List String),
        parse l = none →
        (runAnalytics parse (some (l :: lines))).1 = (runAnalytics parse (some lines)).1)
    ∧ (∀ (α : Type) (parse : String → Option α) (l : String) (lines : List String) (a : α),
        parse l = some a →
        (runAnalytics parse (some (l :: lines))).1 = a :: (runAnalytics parse (some lines)).1) := by
  refine ⟨fun _ parse => ⟨rfl, Nat.one_ne_zero,
    fun hcontra => absurd hcontra (by decide : ¬("error: input file not found" = ""))⟩, ?_, ?_⟩
  · intro _ parse l lines hnone
    simp [runAnalytics, skipMalformed, List.filterMap_cons, hnone]
  · intro _ parse l lines a hsome
    simp [runAnalytics, skipMalformed, List.filterMap_cons, hsome]

/-- Witness for C7: a line the parser rejects is skipped. -/
theorem c7_error_handling_witness :
    (runAnalytics (fun _ => (none : Option Nat)) (some ["not json"])).1
      = (runAnalytics (fun _ => (none : Option Nat)) (some [])).1 :=
  c7_error_handling.2.1 Nat (fun _ => none) "not json" [] rfl

/-- C8: After `shade(img, x, y, w, h, base, hi, lo)` with `w >= 2` and
`h >= 2`: the top row is `hi`, the bottom row is `lo`, the left column
at rows `y+1 .. y+h-2` is `hi`, the right column at those rows is
`lo`, and every remaining interior pixel is `base`; in particular both
top corners are `hi` and both bottom corners are `lo`. -/
theorem c8_shade_postcondition (init : Int → Int → Color) (x y w h : Int)
    (base hi lo : Color) (a b : Int) (hw : 2 ≤ w) (hh : 2 ≤ h) :
    ((b = y ∧ x ≤ a ∧ a < x + w) →
       pixelAt init (shade x y w h base hi lo) a b = hi) ∧
    ((b = y + h - 1 ∧ x ≤ a ∧ a < x + w) →
       pixelAt init (shade x y w h base hi lo) a b = lo) ∧
    ((a = x ∧ y + 1 ≤ b ∧ b ≤ y + h - 2) →
       pixelAt init (shade x y w h base hi lo) a b = hi) ∧
    ((a = x + w - 1 ∧ y + 1 ≤ b ∧ b ≤ y + h - 2) →
       pixelAt init (shade x y w h base hi lo) a b = lo) ∧
    ((x + 1 ≤ a ∧ a ≤ x + w - 2 ∧ y + 1 ≤ b ∧ b ≤ y + h - 2) →
       pixelAt init (shade x y w h base hi lo) a b = base) := by
  have hw' : ((w.toNat : Int)) = w := Int.toNat_of_nonneg (by omega)
  have hh' : ((h.toNat : Int)) = h := Int.toNat_of_nonneg (by omega)
  have hh2 : (((h - 2).toNat : Int)) = h - 2 := Int.toNat_of_nonneg (by omega)
  refine ⟨?_, ?_, ?_, ?_, ?_⟩ <;>
    (intro hr
     unfold pixelAt shade fill
     simp only [foldl_updAt_append, foldl_fillseg, foldl_hseg, foldl_vseg]
     simp only [hw', hh', hh2]
     split_ifs <;> first | rfl | (exfalso; omega))

/-- Witness for C8: top-right corner of a 2x2 shade is the highlight
color. -/
theorem c8_shade_postcondition_witness :
    pixelAt (fun _ _ => T) (shade 0 0 2 2 (1, 2, 3, 4) (5, 6, 7, 8) (9, 10, 11, 12)) 1 0
      = (5, 6, 7, 8) :=
  (c8_shade_postcondition (fun _ _ => T) 0 0 2 2 (1, 2, 3, 4) (5, 6, 7, 8) (9, 10, 11, 12)
      1 0 (by decide) (by decide)).1 ⟨rfl, by decide, by decide⟩

/-- C10: The texture script's command-line surface is flat and
trivial: it inspects no argument vector (its behaviour is the same
constant effect trace for every `argv`), and every on-disk location it
touches is one of the three fixed output directories or a path inside
them. -/
theorem c10_cli_surface :
    (∀ argv : List String, mainWithArgv argv = mainEffects)
    ∧ (mainEffects.all fun e =>
        startsWithS (ENTITY_DIR ++ "/") e.path || startsWithS (ITEMS_DIR ++ "/") e.path
          || startsWithS (ARMOR_DIR ++ "/") e.path
          || (e.path == ENTITY_DIR) || (e.path == ITEMS_DIR) || (e.path == ARMOR_DIR)) = true :=
  ⟨fun _ => rfl, by decide⟩

end generate_textures
